import Mathlib

/-!
Verification of the autorun service-manager provider layer.

The definitions below are a shallow embedding of the Go sources:
  - internal/models/service.go            (data model)
  - internal/platform/launchd.go          (LaunchdProvider)
  - internal/platform/systemd.go          (SystemdProvider)
  - internal/platform (Detect)            (provider detection)
External interactions (subprocess exit codes, filesystem contents, the
current user) are passed in as explicit parameters; each function returns
its result together with the trace of filesystem and subprocess effects
it would perform, in order.
-/

namespace Autorun

/-- `type Scope string` from internal/models/service.go. -/
abbrev Scope := String

def ScopeUser : Scope := "user"

def ScopeSystem : Scope := "system"

def StatusRunning : String := "running"

def StatusStopped : String := "stopped"

def StatusFailed : String := "failed"

def StatusUnknown : String := "unknown"

/-- `models.Service`. -/
structure Service where
  name : String
  displayName : String
  status : String
  enabled : Bool
  scope : Scope
  description : String := ""
deriving DecidableEq

/-- `models.ServiceConfig`. The Go `Environment` field is a map; it is
embedded as the association list in which the generator iterates it
(keys unique in any list produced by the Go runtime). -/
structure ServiceConfig where
  name : String
  description : String := ""
  program : String
  arguments : List String := []
  workingDirectory : String := ""
  environment : List (String × String) := []
  runAtLoad : Bool := false
  keepAlive : Bool := false
  standardOutPath : String := ""
  standardErrorPath : String := ""
deriving DecidableEq

/-- Go `strings.HasSuffix`, at character level. -/
def hasSuffix (s suf : String) : Bool := decide (suf.data <:+ s.data)

/-- Go `strings.TrimSuffix` (the sources always guard it with HasSuffix). -/
def trimSuffix (s suf : String) : String :=
  if hasSuffix s suf then String.mk (s.data.take (s.data.length - suf.data.length)) else s

/-- Filesystem / subprocess effects, used to record the order in which a
provider operation touches the outside world. -/
inductive Eff
  | mkdirAll (dir : String)
  | statFile (path : String)
  | writeFile (path : String)
  | removeFile (path : String)
  | runCmd (cmd : List String)
deriving DecidableEq

/-! ## Provider detection (part_004, `Detect`, lines 49-62)

`goos` models `runtime.GOOS`; `systemdMarker` models
`os.Stat("/run/systemd/system")` succeeding; `userOk` models
`user.Current()` succeeding inside `NewLaunchdProvider`. -/

inductive ProviderKind
  | launchd
  | systemd
deriving DecidableEq

def Detect (goos : String) (systemdMarker : Bool) (userOk : Bool) :
    Except String ProviderKind :=
  if goos = "darwin" then
    if userOk then .ok .launchd else .error "failed to get current user"
  else if goos = "linux" then
    if systemdMarker then .ok .systemd
    else .error "systemd not detected on this Linux system"
  else .error ("unsupported platform: " ++ goos)

/-! ## SystemdProvider (internal/platform/systemd.go) -/

/-- One record of `systemctl list-units --output=json` (`systemdUnit`). -/
structure SystemdUnit where
  unit : String
  load : String
  active : String
  sub : String
  description : String
deriving DecidableEq

namespace SystemdProvider

/-- `ListServices` (systemd.go lines 72-111), given the parsed output of
`listUnits` and the per-unit result of the `isEnabled` query.  The Go
loop appends one `Service` per unit record. -/
def ListServices (units : List SystemdUnit) (isEnabled : String → Bool)
    (scope : Scope) : List Service :=
  units.foldl (fun services u =>
    let name := if hasSuffix u.unit ".service" then trimSuffix u.unit ".service" else u.unit
    let status :=
      match u.active with
      | "active" => if u.sub = "running" then StatusRunning else StatusStopped
      | "inactive" => StatusStopped
      | "failed" => StatusFailed
      | _ => StatusUnknown
    services ++ [{ name := name, displayName := name, status := status,
                   enabled := isEnabled u.unit, scope := scope,
                   description := u.description }]) []

/-- The loop body of `GetService` (systemd.go lines 113-126): return the
first service whose name matches directly or with ".service" appended. -/
def findServiceLoop (name : String) : List Service → Except String Service
  | [] => .error ("service not found: " ++ name)
  | svc :: rest =>
    if svc.name = name ∨ svc.name ++ ".service" = name then .ok svc
    else findServiceLoop name rest

/-- `GetService` (systemd.go lines 113-126). -/
def GetService (units : List SystemdUnit) (isEnabled : String → Bool)
    (name : String) (scope : Scope) : Except String Service :=
  findServiceLoop name (ListServices units isEnabled scope)

/-- Directory resolution shared by `CreateService` and `DeleteService`
(systemd.go lines 216-229 and 358-371). `home` models
`user.Current().HomeDir`. -/
def targetDir (scope : Scope) (home : String) : String :=
  if scope = ScopeUser then home ++ "/.config/systemd/user" else "/etc/systemd/system"

/-- `serviceName := name` with ".service" appended when missing
(systemd.go lines 236-240 and 373-377). -/
def serviceFileName (name : String) : String :=
  if hasSuffix name ".service" then name else name ++ ".service"

/-- `unitPath := filepath.Join(targetDir, serviceName)`. -/
def unitPath (name : String) (scope : Scope) (home : String) : String :=
  targetDir scope home ++ "/" ++ serviceFileName name

/-- The `systemctl` argument list with the `--user` flag for user scope. -/
def sysArgs (scope : Scope) (rest : List String) : List String :=
  "systemctl" :: (if scope = ScopeUser then ["--user"] else []) ++ rest

/-- `CreateService` (systemd.go lines 208-274).  `fs` is the set of
existing descriptor files; `mkdirOk`, `writeOk`, `reloadOk`, `enableOk`,
`startOk` give the outcomes of the corresponding filesystem operations
and `systemctl` invocations.  Returns the result, the resulting
descriptor-file set, and the effect trace. -/
def CreateService (cfg : ServiceConfig) (scope : Scope) (home : String)
    (fs : List String) (mkdirOk writeOk reloadOk enableOk startOk : Bool) :
    Except String Unit × List String × List Eff :=
  if cfg.name = "" then (.error "service name is required", fs, [])
  else if cfg.program = "" then (.error "program path is required", fs, [])
  else if scope = ScopeUser ∨ scope = ScopeSystem then
    let dir := targetDir scope home
    let t1 : List Eff := [.mkdirAll dir]
    if mkdirOk = false then
      (.error ("failed to create directory " ++ dir), fs, t1)
    else
      let svcName := serviceFileName cfg.name
      let path := unitPath cfg.name scope home
      let t2 := t1 ++ [Eff.statFile path]
      if path ∈ fs then
        (.error ("service " ++ cfg.name ++ " already exists"), fs, t2)
      else
        let t3 := t2 ++ [Eff.writeFile path]
        if writeOk = false then (.error "failed to write unit file", fs, t3)
        else
          let fs1 := path :: fs
          let t4 := t3 ++ [Eff.runCmd (sysArgs scope ["daemon-reload"])]
          if reloadOk = false then
            (.error "failed to reload systemd",
             fs1.filter (fun p => p ≠ path), t4 ++ [Eff.removeFile path])
          else if cfg.runAtLoad then
            let t5 := t4 ++ [Eff.runCmd (sysArgs scope ["enable", svcName])]
            if enableOk = false then (.error "failed to enable service", fs1, t5)
            else
              let t6 := t5 ++ [Eff.runCmd (sysArgs scope ["start", svcName])]
              if startOk = false then (.error "failed to start service", fs1, t6)
              else (.ok (), fs1, t6)
          else (.ok (), fs1, t4)
  else (.error ("invalid scope: " ++ scope), fs, [])

/-- `DeleteService` (systemd.go lines 357-401).  The results of the
`stop` and `disable` invocations are discarded by the source
(`_ = p.Stop(...)`, `_ = p.Disable(...)`), so no outcome parameters for
them appear: only their effects are recorded. -/
def DeleteService (name : String) (scope : Scope) (home : String)
    (fs : List String) (removeOk reloadOk : Bool) :
    Except String Unit × List String × List Eff :=
  if scope = ScopeUser ∨ scope = ScopeSystem then
    let svcName := serviceFileName name
    let path := unitPath name scope home
    let t1 : List Eff := [.statFile path]
    if path ∉ fs then (.error ("service not found: " ++ name), fs, t1)
    else
      let t2 := t1 ++ [Eff.runCmd (sysArgs scope ["stop", svcName]),
                       Eff.runCmd (sysArgs scope ["disable", svcName])]
      let t3 := t2 ++ [Eff.removeFile path]
      if removeOk = false then (.error "failed to delete service file", fs, t3)
      else
        let fs1 := fs.filter (fun p => p ≠ path)
        let t4 := t3 ++ [Eff.runCmd (sysArgs scope ["daemon-reload"])]
        if reloadOk = false then (.error "failed to reload systemd", fs1, t4)
        else (.ok (), fs1, t4)
  else (.error ("invalid scope: " ++ scope), fs, [])

end SystemdProvider

/-! ## LaunchdProvider (part_003, first document) -/

/-- A parsed line of the `services = { ... }` block of
`launchctl print <domain>` (`launchdEntry`, part_003 lines 67-70). -/
structure LaunchdEntry where
  pid : Int
  label : String
deriving DecidableEq

namespace LaunchdProvider

/-- `getServiceDirs` (part_003 lines 169-184). -/
def getServiceDirs (scope : Scope) (userHome : String) : List String :=
  if scope = ScopeUser then
    [userHome ++ "/Library/LaunchAgents", "/Library/LaunchAgents"]
  else if scope = ScopeSystem then
    ["/Library/LaunchDaemons", "/System/Library/LaunchDaemons"]
  else []

/-- `findPlistForLabel` (part_003 lines 187-196): the first directory in
which `<dir>/<label>.plist` exists.  `fs` is the set of existing files. -/
def findPlistForLabel (fs : List String) (userHome : String) (label : String)
    (scope : Scope) : Option String :=
  (getServiceDirs scope userHome).findSome? (fun dir =>
    let p := dir ++ "/" ++ label ++ ".plist"
    if p ∈ fs then some p else none)

/-- The body of `ListServices` (part_003 lines 198-265) after the domain
queries: `entries` is the parsed `launchctl print` snapshot for the
resolved domain, `dirFiles` the file names found by scanning the scope
directories, and `disabledByLabel` the map produced by
`listDisabledServices` (`none` when the query failed or does not name
the label - the Go map lookup misses in both cases).  `knownLabels` is a
Go map keyed by label, embedded as a deduplicated list. -/
def ListServicesCore (entries : List LaunchdEntry) (dirFiles : List String)
    (disabledByLabel : String → Option Bool) (scope : Scope) : List Service :=
  let knownLabels :=
    ((dirFiles.filter (fun f => hasSuffix f ".plist")).map
      (fun f => trimSuffix f ".plist")).dedup
  knownLabels.map (fun label =>
    let status :=
      if entries.any (fun e => e.label = label ∧ 0 < e.pid) then StatusRunning
      else StatusStopped
    let enabled :=
      match disabledByLabel label with
      | some disabled => !disabled
      | none => true
    { name := label, displayName := label, status := status,
      enabled := enabled, scope := scope })

/-- `ListServices` (part_003 lines 198-265) with the scope-validity check
and the `launchctl print` failure path (`printResult = none`). -/
def ListServices (printResult : Option (List LaunchdEntry))
    (dirFiles : List String) (disabledByLabel : String → Option Bool)
    (scope : Scope) : Except String (List Service) :=
  if scope = ScopeUser ∨ scope = ScopeSystem then
    match printResult with
    | none => .error "launchctl print failed"
    | some entries => .ok (ListServicesCore entries dirFiles disabledByLabel scope)
  else .error ("invalid scope: " ++ scope)

/-- The four `launchctl` invocations `Start` can make. -/
inductive StartStep
  | bootstrap
  | kickstartK
  | load
  | kickstart
deriving DecidableEq

/-- `Start` (part_003 lines 282-330).  `ok` gives the exit outcome of
each `launchctl` invocation; the second component is the list of
invocations actually run, in order. -/
def Start (fs : List String) (userHome uid : String) (name : String)
    (scope : Scope) (ok : StartStep → Bool) :
    Except String Unit × List StartStep :=
  match findPlistForLabel fs userHome name scope with
  | none => (.error ("plist not found for service: " ++ name), [])
  | some _ =>
    let bootstrapOk := ok .bootstrap
    if ok .kickstartK then (.ok (), [.bootstrap, .kickstartK])
    else if bootstrapOk then (.ok (), [.bootstrap, .kickstartK])
    else if ok .load then (.ok (), [.bootstrap, .kickstartK, .load, .kickstart])
    else (.error "failed to start service", [.bootstrap, .kickstartK, .load])

/-- Command names used when recording `Start` steps in an effect trace. -/
def startStepEff : StartStep → Eff
  | .bootstrap => .runCmd ["launchctl", "bootstrap"]
  | .kickstartK => .runCmd ["launchctl", "kickstart", "-k"]
  | .load => .runCmd ["launchctl", "load"]
  | .kickstart => .runCmd ["launchctl", "kickstart"]

/-- `CreateService` (part_003 lines 501-555).  The logging calls of the
source write to stderr only and are not filesystem or subprocess
effects.  When `runAtLoad` is set the source returns `p.Start(...)`. -/
def CreateService (cfg : ServiceConfig) (scope : Scope) (userHome uid : String)
    (fs : List String) (mkdirOk writeOk : Bool) (ok : StartStep → Bool) :
    Except String Unit × List String × List Eff :=
  if cfg.name = "" then (.error "service name is required", fs, [])
  else if cfg.program = "" then (.error "program path is required", fs, [])
  else if scope = ScopeUser ∨ scope = ScopeSystem then
    let dir := if scope = ScopeUser then userHome ++ "/Library/LaunchAgents"
               else "/Library/LaunchDaemons"
    let t1 : List Eff := [.mkdirAll dir]
    if mkdirOk = false then
      (.error ("failed to create directory " ++ dir), fs, t1)
    else
      let plistPath := dir ++ "/" ++ cfg.name ++ ".plist"
      let t2 := t1 ++ [Eff.statFile plistPath]
      if plistPath ∈ fs then
        (.error ("service " ++ cfg.name ++ " already exists"), fs, t2)
      else
        let t3 := t2 ++ [Eff.writeFile plistPath]
        if writeOk = false then (.error "failed to write plist file", fs, t3)
        else
          let fs1 := plistPath :: fs
          if cfg.runAtLoad then
            let s := Start fs1 userHome uid cfg.name scope ok
            (s.1, fs1, t3 ++ s.2.map startStepEff)
          else (.ok (), fs1, t3)
  else (.error ("invalid scope: " ++ scope), fs, [])

end LaunchdProvider

/-! ## Descriptor generation and re-parsing (claim about §8 round trip)

The generators below embed `generatePlist` (part_003 lines 558-663) and
`generateUnitFile` (systemd.go lines 277-339) at character level: a Go
string is embedded as its list of characters (`String.data`).  The
parsers are modelled from the spec: the re-parsing direction of the
round-trip property of §8 - the repository itself contains no parser
for its own descriptor output, so the parsers follow the native file
formats on the fragment the generators emit. -/

/-- Character-list view of a string literal. -/
def str (s : String) : List Char := s.data

/-- Go `strings.ReplaceAll` for a one-character pattern. -/
def replaceAllChar (c : Char) (rep : List Char) : List Char → List Char
  | [] => []
  | x :: xs => if x = c then rep ++ replaceAllChar c rep xs else x :: replaceAllChar c rep xs

/-- `escapeXML` (part_003 lines 666-673): five sequential ReplaceAll
passes over the five reserved markup characters. -/
def escapeXML (s : List Char) : List Char :=
  replaceAllChar '"' (str "&quot;")
    (replaceAllChar '\'' (str "&apos;")
      (replaceAllChar '>' (str "&gt;")
        (replaceAllChar '<' (str "&lt;")
          (replaceAllChar '&' (str "&amp;") s))))

/-- Per-character form of `escapeXML`, used to reason about it. -/
def escChar (c : Char) : List Char :=
  if c = '&' then str "&amp;"
  else if c = '<' then str "&lt;"
  else if c = '>' then str "&gt;"
  else if c = '\'' then str "&apos;"
  else if c = '"' then str "&quot;"
  else [c]

/-- Inverse of `escapeXML`: expand the five XML entities. -/
def unescapeXML : List Char → List Char
  | [] => []
  | c :: rest =>
    if c = '&' then
      if (str "amp;").isPrefixOf rest then '&' :: unescapeXML (rest.drop 4)
      else if (str "lt;").isPrefixOf rest then '<' :: unescapeXML (rest.drop 3)
      else if (str "gt;").isPrefixOf rest then '>' :: unescapeXML (rest.drop 3)
      else if (str "apos;").isPrefixOf rest then '\'' :: unescapeXML (rest.drop 5)
      else if (str "quot;").isPrefixOf rest then '"' :: unescapeXML (rest.drop 5)
      else '&' :: unescapeXML rest
    else c :: unescapeXML rest
termination_by s => s.length
decreasing_by all_goals (simp [List.length_drop]; try omega)

/-- `generatePlist` (part_003 lines 558-663), transcribed WriteString by
WriteString.  The Go map iteration over `Environment` is the order of
the association list. -/
def generatePlist (cfg : ServiceConfig) : List Char :=
  str "<?xml version=\"1.0\" encoding=\"UTF-8\"?>\n<!DOCTYPE plist PUBLIC \"-//Apple//DTD PLIST 1.0//EN\" \"http://www.apple.com/DTDs/PropertyList-1.0.dtd\">\n<plist version=\"1.0\">\n<dict>\n\t<key>Label</key>\n\t<string>"
  ++ escapeXML (str cfg.name) ++ str "</string>\n"
  ++ (if 0 < cfg.arguments.length then
        str "\t<key>ProgramArguments</key>\n\t<array>\n\t\t<string>"
        ++ escapeXML (str cfg.program) ++ str "</string>\n"
        ++ cfg.arguments.flatMap (fun arg =>
             str "\t\t<string>" ++ escapeXML (str arg) ++ str "</string>\n")
        ++ str "\t</array>\n"
      else
        str "\t<key>Program</key>\n\t<string>"
        ++ escapeXML (str cfg.program) ++ str "</string>\n")
  ++ (if cfg.workingDirectory ≠ "" then
        str "\t<key>WorkingDirectory</key>\n\t<string>"
        ++ escapeXML (str cfg.workingDirectory) ++ str "</string>\n"
      else [])
  ++ (if cfg.environment ≠ [] then
        str "\t<key>EnvironmentVariables</key>\n\t<dict>\n"
        ++ cfg.environment.flatMap (fun kv =>
             str "\t\t<key>" ++ escapeXML (str kv.1) ++ str "</key>\n\t\t<string>"
             ++ escapeXML (str kv.2) ++ str "</string>\n")
        ++ str "\t</dict>\n"
      else [])
  ++ str "\t<key>RunAtLoad</key>\n\t<"
  ++ (if cfg.runAtLoad then str "true" else str "false") ++ str "/>\n"
  ++ (if cfg.keepAlive then str "\t<key>KeepAlive</key>\n\t<true/>\n" else [])
  ++ (if cfg.standardOutPath ≠ "" then
        str "\t<key>StandardOutPath</key>\n\t<string>"
        ++ escapeXML (str cfg.standardOutPath) ++ str "</string>\n"
      else [])
  ++ (if cfg.standardErrorPath ≠ "" then
        str "\t<key>StandardErrorPath</key>\n\t<string>"
        ++ escapeXML (str cfg.standardErrorPath) ++ str "</string>\n"
      else [])
  ++ str "</dict>\n</plist>\n"

/-- `execStart` accumulation of `generateUnitFile` (systemd.go lines
294-305): arguments containing a space are wrapped in double quotes. -/
def execStartLine (cfg : ServiceConfig) : List Char :=
  str cfg.program
  ++ cfg.arguments.flatMap (fun arg =>
       if ' ' ∈ str arg then str " \"" ++ str arg ++ str "\""
       else str " " ++ str arg)

/-- `generateUnitFile` (systemd.go lines 277-339). -/
def generateUnitFile (cfg : ServiceConfig) : List Char :=
  str "[Unit]\n"
  ++ (if cfg.description ≠ "" then
        str "Description=" ++ str cfg.description ++ str "\n"
      else str "Description=" ++ str cfg.name ++ str " service\n")
  ++ str "After=network.target\n\n[Service]\nType=simple\n"
  ++ str "ExecStart=" ++ execStartLine cfg ++ str "\n"
  ++ (if cfg.workingDirectory ≠ "" then
        str "WorkingDirectory=" ++ str cfg.workingDirectory ++ str "\n"
      else [])
  ++ cfg.environment.flatMap (fun kv =>
       str "Environment=\"" ++ str kv.1 ++ str "=" ++ str kv.2 ++ str "\"\n")
  ++ (if cfg.keepAlive then str "Restart=always\nRestartSec=5\n" else [])
  ++ (if cfg.standardOutPath ≠ "" then
        str "StandardOutput=file:" ++ str cfg.standardOutPath ++ str "\n"
      else [])
  ++ (if cfg.standardErrorPath ≠ "" then
        str "StandardError=file:" ++ str cfg.standardErrorPath ++ str "\n"
      else [])
  ++ str "\n[Install]\nWantedBy=default.target\n"

/-! ### An XML tokenizer for the generated plist -/

/-- Markup token: a tag (text between an angle-bracket pair) or a
maximal run of character data. -/
inductive XTok
  | tag : List Char → XTok
  | txt : List Char → XTok
deriving DecidableEq

def XTok.isTxt : XTok → Bool
  | XTok.txt _ => true
  | XTok.tag _ => false

/-- Split a document into tags and maximal text runs. -/
def tokenize (s : List Char) : List XTok :=
  match s with
  | [] => []
  | c :: rest =>
    if c = '<' then
      XTok.tag (rest.takeWhile (fun ch => ch ≠ '>'))
        :: tokenize ((rest.dropWhile (fun ch => ch ≠ '>')).drop 1)
    else
      XTok.txt (c :: rest.takeWhile (fun ch => ch ≠ '<'))
        :: tokenize (rest.dropWhile (fun ch => ch ≠ '<'))
termination_by s.length
decreasing_by
  all_goals simp only [List.length_cons]
  all_goals refine Nat.lt_succ_of_le ?_
  · exact le_trans ((List.drop_sublist _ _).length_le)
      ((List.dropWhile_sublist _).length_le)
  · exact (List.dropWhile_sublist _).length_le

/-- Inverse of `tokenize`: print a token stream back to characters. -/
def render : List XTok → List Char
  | [] => []
  | XTok.tag n :: rest => '<' :: (n ++ '>' :: render rest)
  | XTok.txt s :: rest => s ++ render rest

/-- A token that `tokenize` can reproduce: tag names are free of the
closing bracket, text runs are nonempty and free of the opening one. -/
def TokOk : XTok → Prop
  | XTok.tag n => ∀ c ∈ n, c ≠ '>'
  | XTok.txt s => s ≠ [] ∧ ∀ c ∈ s, c ≠ '<'

/-- Adjacent text runs would merge, so a well-formed stream never puts
two text tokens next to each other. -/
def TokSep (a b : XTok) : Prop := a.isTxt = true → b.isTxt = false

/-! ### Token streams of the generated plist -/

/-- A possibly-empty character-data token. -/
def optTxt (v : List Char) : List XTok := if v = [] then [] else [XTok.txt v]

/-- `<string>v</string>`. -/
def strToks (v : List Char) : List XTok :=
  XTok.tag (str "string") :: (optTxt v ++ [XTok.tag (str "/string")])

/-- A top-level `<key>k</key><string>v</string>` entry, with the
whitespace the generator puts around it. -/
def entryToks (k v : List Char) : List XTok :=
  [XTok.txt (str "\n\t"), XTok.tag (str "key"), XTok.txt k,
   XTok.tag (str "/key"), XTok.txt (str "\n\t")] ++ strToks v

/-- One array element of the ProgramArguments block. -/
def argToks (v : List Char) : List XTok := XTok.txt (str "\n\t\t") :: strToks v

/-- One pair of the EnvironmentVariables dictionary. -/
def envPairToks (kv : List Char × List Char) : List XTok :=
  XTok.txt (str "\n\t\t") :: XTok.tag (str "key")
    :: (optTxt kv.1 ++ (XTok.tag (str "/key") :: XTok.txt (str "\n\t\t") :: strToks kv.2))

/-- The token stream of `generatePlist cfg`. -/
def plistToks (cfg : ServiceConfig) : List XTok :=
  [XTok.tag (str "?xml version=\"1.0\" encoding=\"UTF-8\"?"), XTok.txt (str "\n"),
   XTok.tag (str "!DOCTYPE plist PUBLIC \"-//Apple//DTD PLIST 1.0//EN\" \"http://www.apple.com/DTDs/PropertyList-1.0.dtd\""),
   XTok.txt (str "\n"), XTok.tag (str "plist version=\"1.0\""), XTok.txt (str "\n"),
   XTok.tag (str "dict")]
  ++ entryToks (str "Label") (escapeXML (str cfg.name))
  ++ (if 0 < cfg.arguments.length then
        [XTok.txt (str "\n\t"), XTok.tag (str "key"), XTok.txt (str "ProgramArguments"),
         XTok.tag (str "/key"), XTok.txt (str "\n\t"), XTok.tag (str "array"),
         XTok.txt (str "\n\t\t")]
        ++ strToks (escapeXML (str cfg.program))
        ++ cfg.arguments.flatMap (fun a => argToks (escapeXML (str a)))
        ++ [XTok.txt (str "\n\t"), XTok.tag (str "/array")]
      else entryToks (str "Program") (escapeXML (str cfg.program)))
  ++ (if cfg.workingDirectory ≠ "" then
        entryToks (str "WorkingDirectory") (escapeXML (str cfg.workingDirectory))
      else [])
  ++ (if cfg.environment ≠ [] then
        [XTok.txt (str "\n\t"), XTok.tag (str "key"), XTok.txt (str "EnvironmentVariables"),
         XTok.tag (str "/key"), XTok.txt (str "\n\t"), XTok.tag (str "dict")]
        ++ cfg.environment.flatMap (fun kv =>
             envPairToks (escapeXML (str kv.1), escapeXML (str kv.2)))
        ++ [XTok.txt (str "\n\t"), XTok.tag (str "/dict")]
      else [])
  ++ [XTok.txt (str "\n\t"), XTok.tag (str "key"), XTok.txt (str "RunAtLoad"),
      XTok.tag (str "/key"), XTok.txt (str "\n\t"),
      XTok.tag (if cfg.runAtLoad then str "true/" else str "false/")]
  ++ (if cfg.keepAlive then
        [XTok.txt (str "\n\t"), XTok.tag (str "key"), XTok.txt (str "KeepAlive"),
         XTok.tag (str "/key"), XTok.txt (str "\n\t"), XTok.tag (str "true/")]
      else [])
  ++ (if cfg.standardOutPath ≠ "" then
        entryToks (str "StandardOutPath") (escapeXML (str cfg.standardOutPath))
      else [])
  ++ (if cfg.standardErrorPath ≠ "" then
        entryToks (str "StandardErrorPath") (escapeXML (str cfg.standardErrorPath))
      else [])
  ++ [XTok.txt (str "\n"), XTok.tag (str "/dict"), XTok.txt (str "\n"),
      XTok.tag (str "/plist"), XTok.txt (str "\n")]

/-! ### Plist parser over the token stream -/

/-- Values recovered from a plist document by re-parsing. -/
structure ParsedPlist where
  label : List Char := []
  program : List Char := []
  arguments : List (List Char) := []
  workingDirectory : List Char := []
  environment : List (List Char × List Char) := []
  runAtLoad : Bool := false
  keepAlive : Bool := false
  standardOutPath : List Char := []
  standardErrorPath : List Char := []
deriving DecidableEq

/-- Skip one interleaving whitespace run, if present. -/
def skipTxt1 (toks : List XTok) : List XTok :=
  match toks with
  | XTok.txt _ :: rest => rest
  | _ => toks

/-- Read `<key>k</key>` (the key may be empty). -/
def readEntryKey (toks : List XTok) : Option (List Char × List XTok) :=
  match skipTxt1 toks with
  | XTok.tag e :: XTok.txt k :: XTok.tag e2 :: rest =>
    if e = str "key" ∧ e2 = str "/key" then some (k, rest) else none
  | XTok.tag e :: XTok.tag e2 :: rest =>
    if e = str "key" ∧ e2 = str "/key" then some ([], rest) else none
  | _ => none

/-- Read either the next `<key>k</key>` or the closing `</dict>`. -/
def readKeyOrEnd (toks : List XTok) : Option (Option (List Char) × List XTok) :=
  match skipTxt1 toks with
  | XTok.tag e :: XTok.txt k :: XTok.tag e2 :: rest =>
    if e = str "/dict" then some (none, XTok.txt k :: XTok.tag e2 :: rest)
    else if e = str "key" ∧ e2 = str "/key" then some (some k, rest)
    else none
  | XTok.tag e :: XTok.tag e2 :: rest =>
    if e = str "/dict" then some (none, XTok.tag e2 :: rest)
    else if e = str "key" ∧ e2 = str "/key" then some (some [], rest)
    else none
  | _ => none

/-- Read `<string>v</string>` (the value may be empty). -/
def readStr (toks : List XTok) : Option (List Char × List XTok) :=
  match skipTxt1 toks with
  | XTok.tag s :: XTok.txt v :: XTok.tag e :: rest =>
    if s = str "string" ∧ e = str "/string" then some (v, rest) else none
  | XTok.tag s :: XTok.tag e :: rest =>
    if s = str "string" ∧ e = str "/string" then some ([], rest) else none
  | _ => none

/-- Expect a given tag, skipping leading whitespace. -/
def expectTag (t : List Char) (toks : List XTok) : Option (List XTok) :=
  match skipTxt1 toks with
  | XTok.tag e :: rest => if e = t then some rest else none
  | _ => none

/-- Read the self-closing `<true/>` or `<false/>` boolean. -/
def readBoolTag (toks : List XTok) : Option (Bool × List XTok) :=
  match skipTxt1 toks with
  | XTok.tag e :: rest =>
    if e = str "true/" then some (true, rest)
    else if e = str "false/" then some (false, rest)
    else none
  | _ => none

/-- Read `<string>` elements until the closing `</array>`. -/
def readStrings : List XTok → Option (List (List Char) × List XTok)
  | XTok.txt _ :: rest => readStrings rest
  | XTok.tag e :: rest =>
    if e = str "/array" then some ([], rest)
    else if e = str "string" then
      match rest with
      | XTok.txt v :: XTok.tag e2 :: rest2 =>
        if e2 = str "/string" then
          match readStrings rest2 with
          | some (vs, r) => some (v :: vs, r)
          | none => none
        else none
      | XTok.tag e2 :: rest2 =>
        if e2 = str "/string" then
          match readStrings rest2 with
          | some (vs, r) => some ([] :: vs, r)
          | none => none
        else none
      | _ => none
    else none
  | [] => none
termination_by toks => toks.length
decreasing_by all_goals (simp; try omega)

/-- Read `<key>k</key><string>v</string>` pairs until the closing
`</dict>` of the environment dictionary. -/
def readEnvPairs : List XTok → Option (List (List Char × List Char) × List XTok)
  | XTok.txt _ :: rest => readEnvPairs rest
  | XTok.tag e :: rest =>
    if e = str "/dict" then some ([], rest)
    else if e = str "key" then
      match rest with
      | XTok.txt k :: XTok.tag e2 :: XTok.txt _ :: XTok.tag s :: more =>
        if e2 = str "/key" ∧ s = str "string" then
          match more with
          | XTok.txt v :: XTok.tag e3 :: rest3 =>
            if e3 = str "/string" then
              match readEnvPairs rest3 with
              | some (ps, r) => some ((k, v) :: ps, r)
              | none => none
            else none
          | XTok.tag e3 :: rest3 =>
            if e3 = str "/string" then
              match readEnvPairs rest3 with
              | some (ps, r) => some ((k, []) :: ps, r)
              | none => none
            else none
          | _ => none
        else none
      | XTok.tag e2 :: XTok.txt _ :: XTok.tag s :: more =>
        if e2 = str "/key" ∧ s = str "string" then
          match more with
          | XTok.txt v :: XTok.tag e3 :: rest3 =>
            if e3 = str "/string" then
              match readEnvPairs rest3 with
              | some (ps, r) => some (([], v) :: ps, r)
              | none => none
            else none
          | XTok.tag e3 :: rest3 =>
            if e3 = str "/string" then
              match readEnvPairs rest3 with
              | some (ps, r) => some (([], ([] : List Char)) :: ps, r)
              | none => none
            else none
          | _ => none
        else none
      | _ => none
    else none
  | [] => none
termination_by toks => toks.length
decreasing_by all_goals (simp; try omega)

/-- Check that the dictionary is closed (trailing tokens are ignored). -/
def expectDictEnd (toks : List XTok) : Option Unit :=
  match readKeyOrEnd toks with
  | some (none, _) => some ()
  | _ => none

/-- Stage for an optional trailing StandardErrorPath entry. -/
def parseTailErr (acc : ParsedPlist) (toks : List XTok) : Option ParsedPlist :=
  match readKeyOrEnd toks with
  | some (none, _) => some acc
  | some (some k, rest) =>
    if k = str "StandardErrorPath" then
      match readStr rest with
      | some (v, rest2) =>
        match expectDictEnd rest2 with
        | some _ => some { acc with standardErrorPath := unescapeXML v }
        | none => none
      | none => none
    else none
  | none => none

/-- Dispatch an already-read key to the StandardOutPath or
StandardErrorPath entry. -/
def dispatchOutErr (acc : ParsedPlist) (k : List Char) (rest : List XTok) :
    Option ParsedPlist :=
  if k = str "StandardOutPath" then
    match readStr rest with
    | some (v, rest2) => parseTailErr { acc with standardOutPath := unescapeXML v } rest2
    | none => none
  else if k = str "StandardErrorPath" then
    match readStr rest with
    | some (v, rest2) =>
      match expectDictEnd rest2 with
      | some _ => some { acc with standardErrorPath := unescapeXML v }
      | none => none
    | none => none
  else none

/-- Stage for the optional StandardOutPath / StandardErrorPath tail. -/
def parseTailOut (acc : ParsedPlist) (toks : List XTok) : Option ParsedPlist :=
  match readKeyOrEnd toks with
  | some (none, _) => some acc
  | some (some k, rest) => dispatchOutErr acc k rest
  | none => none

/-- Stage for the optional KeepAlive entry and everything after it. -/
def parseTailKA (acc : ParsedPlist) (toks : List XTok) : Option ParsedPlist :=
  match readKeyOrEnd toks with
  | some (none, _) => some acc
  | some (some k, rest) =>
    if k = str "KeepAlive" then
      match expectTag (str "true/") rest with
      | some rest2 => parseTailOut { acc with keepAlive := true } rest2
      | none => none
    else dispatchOutErr acc k rest
  | none => none

/-- The mandatory RunAtLoad boolean and the tail after it. -/
def parseRun (acc : ParsedPlist) (toks : List XTok) : Option ParsedPlist :=
  match readBoolTag toks with
  | some (b, rest) => parseTailKA { acc with runAtLoad := b } rest
  | none => none

/-- Handle an already-read key that is either EnvironmentVariables or
RunAtLoad. -/
def parseEnvEntry (acc : ParsedPlist) (k : List Char) (rest : List XTok) :
    Option ParsedPlist :=
  if k = str "EnvironmentVariables" then
    match expectTag (str "dict") rest with
    | some rest2 =>
      match readEnvPairs rest2 with
      | some (ps, rest3) =>
        match readEntryKey rest3 with
        | some (k2, rest4) =>
          if k2 = str "RunAtLoad" then
            parseRun { acc with
              environment := ps.map (fun kv => (unescapeXML kv.1, unescapeXML kv.2)) } rest4
          else none
        | none => none
      | none => none
    | none => none
  else if k = str "RunAtLoad" then parseRun acc rest
  else none

/-- Entries after the program: optional WorkingDirectory, optional
EnvironmentVariables, then RunAtLoad. -/
def parseAfterProgram (acc : ParsedPlist) (toks : List XTok) : Option ParsedPlist :=
  match readEntryKey toks with
  | some (k, rest) =>
    if k = str "WorkingDirectory" then
      match readStr rest with
      | some (v, rest2) =>
        match readEntryKey rest2 with
        | some (k2, rest3) =>
          parseEnvEntry { acc with workingDirectory := unescapeXML v } k2 rest3
        | none => none
      | none => none
    else parseEnvEntry acc k rest
  | none => none

/-- Dictionary body: Label entry, then the Program or ProgramArguments
entry, then the rest. -/
def parseBody (toks : List XTok) : Option ParsedPlist :=
  match readEntryKey toks with
  | some (k1, r1) =>
    if k1 = str "Label" then
      match readStr r1 with
      | some (lab, r2) =>
        match readEntryKey r2 with
        | some (k2, r3) =>
          if k2 = str "ProgramArguments" then
            match expectTag (str "array") r3 with
            | some r4 =>
              match readStrings r4 with
              | some (p :: args, r5) =>
                parseAfterProgram
                  { label := unescapeXML lab, program := unescapeXML p,
                    arguments := args.map unescapeXML } r5
              | _ => none
            | none => none
          else if k2 = str "Program" then
            match readStr r3 with
            | some (p, r4) =>
              parseAfterProgram { label := unescapeXML lab, program := unescapeXML p } r4
            | none => none
          else none
        | none => none
      | none => none
    else none
  | none => none

/-- Parse the token stream of a plist document: the XML declaration,
doctype and plist element, then the dictionary body. -/
def parsePlistToks (toks : List XTok) : Option ParsedPlist :=
  match toks with
  | XTok.tag _ :: XTok.txt _ :: XTok.tag _ :: XTok.txt _ :: XTok.tag _
      :: XTok.txt _ :: XTok.tag d :: rest =>
    if d = str "dict" then parseBody rest else none
  | _ => none

/-- Re-parse a plist document. -/
def parsePlist (doc : List Char) : Option ParsedPlist :=
  parsePlistToks (tokenize doc)

/-- The values re-parsing the generated plist is expected to recover. -/
def mkParsed (cfg : ServiceConfig) : ParsedPlist :=
  { label := str cfg.name, program := str cfg.program,
    arguments := cfg.arguments.map str,
    workingDirectory := str cfg.workingDirectory,
    environment := cfg.environment.map (fun kv => (str kv.1, str kv.2)),
    runAtLoad := cfg.runAtLoad, keepAlive := cfg.keepAlive,
    standardOutPath := str cfg.standardOutPath,
    standardErrorPath := str cfg.standardErrorPath }

/-! ### Unit-file parser -/

/-- Values recovered from a systemd unit file by re-parsing.  The unit
file does not carry a run-at-load marker, so there is no such field. -/
structure ParsedUnit where
  program : List Char := []
  arguments : List (List Char) := []
  environment : List (List Char × List Char) := []
  keepAlive : Bool := false
deriving DecidableEq

/-- Split a character list at every occurrence of a separator char. -/
def splitOnChar (c : Char) : List Char → List (List Char)
  | [] => [[]]
  | x :: xs =>
    match splitOnChar c xs with
    | [] => [[x]]
    | h :: t => if x = c then [] :: h :: t else (x :: h) :: t

/-- The content of a line carrying the ExecStart directive. -/
def execLineMatch (l : List Char) : Option (List Char) :=
  if (str "ExecStart=").isPrefixOf l then some (l.drop (str "ExecStart=").length)
  else none

/-- One `Environment="K=V"` line, split at the first equals sign of the
quoted payload. -/
def parseEnvLine (l : List Char) : Option (List Char × List Char) :=
  if (str "Environment=\"").isPrefixOf l ∧ l.getLast? = some '"' then
    let mid := (l.drop (str "Environment=\"").length).dropLast
    some (mid.takeWhile (fun ch => ch ≠ '='),
          (mid.dropWhile (fun ch => ch ≠ '=')).drop 1)
  else none

/-- Split the argument part of an ExecStart command line: tokens are
separated by single spaces, and a token opening with a double quote
runs to the closing quote. -/
def parseExecArgs : List Char → List (List Char)
  | [] => []
  | c :: rest =>
    if c = ' ' then
      if rest.head? = some '"' then
        (rest.tail.takeWhile (fun ch => ch ≠ '"'))
          :: parseExecArgs ((rest.tail.dropWhile (fun ch => ch ≠ '"')).drop 1)
      else
        (rest.takeWhile (fun ch => ch ≠ ' '))
          :: parseExecArgs (rest.dropWhile (fun ch => ch ≠ ' '))
    else []
termination_by s => s.length
decreasing_by
  all_goals simp only [List.length_cons]
  all_goals refine Nat.lt_succ_of_le ?_
  · exact le_trans ((List.drop_sublist _ _).length_le)
      (le_trans ((List.dropWhile_sublist _).length_le)
        ((List.tail_sublist _).length_le))
  · exact (List.dropWhile_sublist _).length_le

/-- Re-parse a generated unit file: locate the ExecStart line, collect
the Environment lines, and detect the always-restart policy. -/
def parseUnitFile (doc : List Char) : ParsedUnit :=
  let lines := splitOnChar '\n' doc
  let ex :=
    match lines.findSome? execLineMatch with
    | some content => (content.takeWhile (fun ch => ch ≠ ' '),
                       parseExecArgs (content.dropWhile (fun ch => ch ≠ ' ')))
    | none => (([] : List Char), ([] : List (List Char)))
  { program := ex.1, arguments := ex.2,
    environment := lines.filterMap parseEnvLine,
    keepAlive := lines.any (fun l => l = str "Restart=always") }

/-- The values re-parsing the generated unit file is expected to
recover. -/
def mkParsedUnit (cfg : ServiceConfig) : ParsedUnit :=
  { program := str cfg.program, arguments := cfg.arguments.map str,
    environment := cfg.environment.map (fun kv => (str kv.1, str kv.2)),
    keepAlive := cfg.keepAlive }

/-- Status mapping as the spec words it: active+running is Running,
active with any other sub-state is Stopped, inactive is Stopped, failed
is Failed, anything else is Unknown. -/
def specStatus (active sub : String) : String :=
  if active = "active" ∧ sub = "running" then StatusRunning
  else if active = "active" then StatusStopped
  else if active = "inactive" then StatusStopped
  else if active = "failed" then StatusFailed
  else StatusUnknown

/-- Enabled flag of a directory-scan-only launchd service, as the spec
words it: taken from the disabled-list query when the query names the
label, defaulting to enabled. -/
def specEnabled (disabledByLabel : String → Option Bool) (label : String) : Bool :=
  match disabledByLabel label with
  | some disabled => !disabled
  | none => true


/-- Decidability of the separation relation. -/
instance : DecidableRel TokSep := fun a b =>
  inferInstanceAs (Decidable (a.isTxt = true → b.isTxt = false))

/-- Decidability of token reproducibility. -/
instance : DecidablePred TokOk := fun t =>
  match t with
  | XTok.tag n => inferInstanceAs (Decidable (∀ c ∈ n, c ≠ '>'))
  | XTok.txt s => inferInstanceAs (Decidable (s ≠ [] ∧ ∀ c ∈ s, c ≠ '<'))

/-- Every token of the stream is reproducible. -/
def AllOk (l : List XTok) : Prop := ∀ t ∈ l, TokOk t

instance (l : List XTok) : Decidable (AllOk l) :=
  inferInstanceAs (Decidable (∀ t ∈ l, TokOk t))

/-- A separated stream that does not end in a text token, so that it can
be appended to any further separated stream. -/
def Good (l : List XTok) : Prop :=
  l.Chain' TokSep ∧ ∀ x ∈ l.getLast?, x.isTxt = false


/-- The lines of the generated unit file, in order, without their
terminating newlines. -/
def unitLines (cfg : ServiceConfig) : List (List Char) :=
  [str "[Unit]",
   (if cfg.description ≠ "" then str "Description=" ++ str cfg.description
    else str "Description=" ++ (str cfg.name ++ str " service")),
   str "After=network.target", [], str "[Service]", str "Type=simple",
   str "ExecStart=" ++ execStartLine cfg]
  ++ ((if cfg.workingDirectory ≠ "" then
        [str "WorkingDirectory=" ++ str cfg.workingDirectory] else [])
  ++ ((cfg.environment.map fun kv =>
        str "Environment=\"" ++ (str kv.1 ++ (str "=" ++ (str kv.2 ++ str "\""))))
  ++ ((if cfg.keepAlive then [str "Restart=always", str "RestartSec=5"] else [])
  ++ ((if cfg.standardOutPath ≠ "" then
        [str "StandardOutput=file:" ++ str cfg.standardOutPath] else [])
  ++ ((if cfg.standardErrorPath ≠ "" then
        [str "StandardError=file:" ++ str cfg.standardErrorPath] else [])
  ++ [[], str "[Install]", str "WantedBy=default.target"])))))

/-! # Theorems -/

theorem data_append (a b : String) : (a ++ b).data = a.data ++ b.data := by
  cases a
  cases b
  rfl

theorem string_ext {a b : String} (h : a.data = b.data) : a = b := by
  cases a
  cases b
  exact congrArg String.mk h

theorem hasSuffix_true_iff (s suf : String) :
    hasSuffix s suf = true ↔ suf.data <:+ s.data := by
  simp [hasSuffix]

theorem trimSuffix_append_of_hasSuffix (s suf : String) (h : hasSuffix s suf = true) :
    trimSuffix s suf ++ suf = s := by
  rcases (hasSuffix_true_iff s suf).1 h with ⟨pre, hpre⟩
  apply string_ext
  rw [data_append, trimSuffix, if_pos h]
  simp only [← hpre]
  have hl : (pre ++ suf.data).length - suf.data.length = pre.length := by
    simp
  rw [hl, List.take_left]

theorem trimSuffix_of_not_hasSuffix (s suf : String) (h : ¬hasSuffix s suf = true) :
    trimSuffix s suf = s := by
  rw [trimSuffix, if_neg h]

/-- The Go append loop of `SystemdProvider.ListServices` is a map. -/
theorem foldl_append_map {α β : Type} (f : α → β) (l : List α) (acc : List β) :
    l.foldl (fun a x => a ++ [f x]) acc = acc ++ l.map f := by
  induction l generalizing acc with
  | nil => simp
  | cons x xs ih => simp [ih]

theorem systemd_status_match (a s : String) :
    (match a with
      | "active" => if s = "running" then StatusRunning else StatusStopped
      | "inactive" => StatusStopped
      | "failed" => StatusFailed
      | _ => StatusUnknown) = specStatus a s := by
  split
  · by_cases hs : s = "running" <;> simp [specStatus, hs]
  · simp [specStatus]
  · simp [specStatus]
  · rename_i h1 h2 h3
    have n1 : ¬(a = "active" ∧ s = "running") := fun h => h1 h.1
    simp only [specStatus]
    rw [if_neg n1, if_neg h1, if_neg h2, if_neg h3]

/-- C3: For every unit record returned by the enumeration query,
`ListServices` strips the ".service" suffix from the unit identifier to
obtain the service name and maps active/sub to the four-value status:
active+running yields Running, active+other yields Stopped, inactive
yields Stopped, failed yields Failed, anything else yields Unknown; in
particular the record (unit "foo.service", active "failed") yields the
service (name "foo", status Failed). -/
theorem claim_C3_systemd_list_mapping (units : List SystemdUnit)
    (isEnabled : String → Bool) (scope : Scope) :
    SystemdProvider.ListServices units isEnabled scope =
      units.map (fun u =>
        { name := trimSuffix u.unit ".service",
          displayName := trimSuffix u.unit ".service",
          status := specStatus u.active u.sub,
          enabled := isEnabled u.unit, scope := scope,
          description := u.description }) ∧
    SystemdProvider.ListServices
        [{ unit := "foo.service", load := "loaded", active := "failed",
           sub := "failed", description := "d" }] isEnabled scope =
      [{ name := "foo", displayName := "foo", status := StatusFailed,
         enabled := isEnabled "foo.service", scope := scope,
         description := "d" }] := by
  have hmain : ∀ (us : List SystemdUnit),
      SystemdProvider.ListServices us isEnabled scope =
        us.map (fun u =>
          { name := trimSuffix u.unit ".service",
            displayName := trimSuffix u.unit ".service",
            status := specStatus u.active u.sub,
            enabled := isEnabled u.unit, scope := scope,
            description := u.description }) := by
    intro us
    rw [SystemdProvider.ListServices, foldl_append_map, List.nil_append]
    apply List.map_congr_left
    intro u _
    have hname : (if hasSuffix u.unit ".service" then trimSuffix u.unit ".service"
        else u.unit) = trimSuffix u.unit ".service" := by
      by_cases h : hasSuffix u.unit ".service" = true
      · rw [if_pos h]
      · rw [if_neg h, trimSuffix_of_not_hasSuffix u.unit ".service" h]
    simp only [hname, systemd_status_match]
  refine ⟨hmain units, ?_⟩
  rw [hmain]
  have hfoo : trimSuffix "foo.service" ".service" = "foo" := by decide
  simp [hfoo, specStatus, StatusFailed]

/-- C1 part (a): every returned service corresponds to a descriptor file
found in the directory scan. -/
theorem claim_C1_launchd_list_reconciliation (entries : List LaunchdEntry)
    (dirFiles : List String) (disabledByLabel : String → Option Bool)
    (scope : Scope) :
    (LaunchdProvider.ListServices (some entries) dirFiles disabledByLabel ScopeUser =
       .ok (LaunchdProvider.ListServicesCore entries dirFiles disabledByLabel ScopeUser)) ∧
    (∀ s ∈ LaunchdProvider.ListServicesCore entries dirFiles disabledByLabel scope,
       ∃ f ∈ dirFiles, hasSuffix f ".plist" = true ∧ s.name = trimSuffix f ".plist") ∧
    (∀ e ∈ entries,
       (∀ f ∈ dirFiles, hasSuffix f ".plist" = true → trimSuffix f ".plist" ≠ e.label) →
       ∀ s ∈ LaunchdProvider.ListServicesCore entries dirFiles disabledByLabel scope,
         s.name ≠ e.label) ∧
    (∀ f ∈ dirFiles, hasSuffix f ".plist" = true →
       (∀ e ∈ entries, e.label = trimSuffix f ".plist" → ¬(0 < e.pid)) →
       ∃ s ∈ LaunchdProvider.ListServicesCore entries dirFiles disabledByLabel scope,
         s.name = trimSuffix f ".plist" ∧ s.status = StatusStopped ∧
         s.enabled = specEnabled disabledByLabel (trimSuffix f ".plist")) := by
  refine ⟨rfl, ?_, ?_, ?_⟩
  · intro s hs
    simp only [LaunchdProvider.ListServicesCore, List.mem_map, List.mem_dedup,
      List.mem_filter] at hs
    rcases hs with ⟨label, ⟨f, ⟨hf, hsuf⟩, rfl⟩, rfl⟩
    exact ⟨f, hf, hsuf, rfl⟩
  · intro e _ hnone s hs hname
    simp only [LaunchdProvider.ListServicesCore, List.mem_map, List.mem_dedup,
      List.mem_filter] at hs
    rcases hs with ⟨label, ⟨f, ⟨hf, hsuf⟩, rfl⟩, rfl⟩
    exact hnone f hf hsuf hname
  · intro f hf hsuf hnostart
    have hmem : trimSuffix f ".plist" ∈
        ((dirFiles.filter (fun g => hasSuffix g ".plist")).map
          (fun g => trimSuffix g ".plist")).dedup := by
      simp only [List.mem_dedup, List.mem_map, List.mem_filter]
      exact ⟨f, ⟨hf, hsuf⟩, rfl⟩
    have hany : entries.any
        (fun e => e.label = trimSuffix f ".plist" ∧ 0 < e.pid) = false := by
      simp only [List.any_eq_false, decide_eq_true_eq, not_and]
      intro e he
      exact hnostart e he
    refine ⟨_, List.mem_map_of_mem _ hmem, rfl, ?_, rfl⟩
    show (if entries.any (fun e => e.label = trimSuffix f ".plist" ∧ 0 < e.pid)
        then StatusRunning else StatusStopped) = StatusStopped
    rw [hany]
    rfl

/-- C1 witness: the spec example inputs - a runtime entry with pid 7 and
label com.example.bar plus its descriptor, a runtime-only label, and a
descriptor com.example.baz.plist with no runtime entry. -/
theorem claim_C1_witness :
    (∀ s ∈ LaunchdProvider.ListServicesCore
        [{ pid := 7, label := "com.example.bar" }, { pid := 9, label := "foreign" }]
        ["com.example.bar.plist", "com.example.baz.plist"]
        (fun _ => none) ScopeUser,
       s.name ≠ "foreign") ∧
    (∃ s ∈ LaunchdProvider.ListServicesCore
        [{ pid := 7, label := "com.example.bar" }, { pid := 9, label := "foreign" }]
        ["com.example.bar.plist", "com.example.baz.plist"]
        (fun _ => none) ScopeUser,
       s.name = "com.example.baz" ∧ s.status = StatusStopped ∧ s.enabled = true) := by
  have h := claim_C1_launchd_list_reconciliation
    [{ pid := 7, label := "com.example.bar" }, { pid := 9, label := "foreign" }]
    ["com.example.bar.plist", "com.example.baz.plist"]
    (fun _ => none) ScopeUser
  constructor
  · intro s hs
    exact h.2.2.1 { pid := 9, label := "foreign" } (by decide)
      (by intro f hf hsuf; fin_cases hf <;> decide) s hs
  · have hz := h.2.2.2 "com.example.baz.plist" (by decide) (by decide)
      (by
        intro e he hlab
        fin_cases he
        · exact absurd hlab (by decide)
        · exact absurd hlab (by decide))
    rcases hz with ⟨s, hs, h1, h2, h3⟩
    exact ⟨s, hs, by simpa using h1, h2, by simpa using h3⟩

/-- C2: launchd Start fails NotFound when no descriptor is found in the
scope directories; otherwise it runs bootstrap (non-fatal) then
kickstart -k, attempts the legacy load exactly when both earlier steps
failed, follows a successful load with one final ignored kickstart, and
returns an error exactly when bootstrap, kickstart -k and load all
failed. -/
theorem claim_C2_launchd_start_fallback (fs : List String) (home uid name : String)
    (scope : Scope) (ok : LaunchdProvider.StartStep → Bool) :
    (LaunchdProvider.findPlistForLabel fs home name scope = none →
       LaunchdProvider.Start fs home uid name scope ok =
         (.error ("plist not found for service: " ++ name), [])) ∧
    (LaunchdProvider.findPlistForLabel fs home name scope ≠ none →
       ((∃ m, (LaunchdProvider.Start fs home uid name scope ok).1 = .error m) ↔
          (ok .bootstrap = false ∧ ok .kickstartK = false ∧ ok .load = false)) ∧
       (LaunchdProvider.Start fs home uid name scope ok).2 =
         (if ok .kickstartK ∨ ok .bootstrap then
            [.bootstrap, .kickstartK]
          else if ok .load then
            [.bootstrap, .kickstartK, .load, .kickstart]
          else [.bootstrap, .kickstartK, .load])) := by
  constructor
  · intro h
    simp [LaunchdProvider.Start, h]
  · intro h
    rcases ho : LaunchdProvider.findPlistForLabel fs home name scope with _ | p
    · exact absurd ho h
    · cases hk : ok .kickstartK <;> cases hb : ok .bootstrap <;> cases hl : ok .load <;>
        simp [LaunchdProvider.Start, ho, hk, hb, hl]

/-- C2 witness: a descriptor exists, bootstrap and kickstart -k fail,
legacy load succeeds; Start succeeds and runs all four invocations in
order. -/
theorem claim_C2_witness :
    (LaunchdProvider.Start ["/Library/LaunchDaemons/com.x.plist"] "/h" "501" "com.x"
        ScopeSystem (fun s => decide (s = .load))).2 =
      [.bootstrap, .kickstartK, .load, .kickstart] := by
  have h := (claim_C2_launchd_start_fallback ["/Library/LaunchDaemons/com.x.plist"]
    "/h" "501" "com.x" ScopeSystem (fun s => decide (s = .load))).2 (by decide)
  rw [h.2]
  decide

/-- C5 counterexample: detection constructs the launchd provider - the
directory+runtime-domain subsystem of the spec - on darwin with the
filesystem marker absent (first Bool argument), so the marker
requirement does not apply to that subsystem as the claim states: in
the source the `/run/systemd/system` marker check guards the systemd
provider on linux instead. -/
theorem claim_C5_counterexample :
    Detect "darwin" false true = .ok ProviderKind.launchd := rfl

/-- C5 amended: detection picks exactly one provider from the operating
system identity; the filesystem marker requirement applies to the
query-based (systemd) subsystem: on linux an absent marker is a fatal
error and no provider is constructed (no fallback); on darwin the
launchd provider is constructed without a marker check; any other
system is a fatal error. -/
theorem claim_C5_detect_amended (goos : String) (marker userOk : Bool) :
    (Detect "linux" marker userOk =
       (if marker then .ok ProviderKind.systemd
        else .error "systemd not detected on this Linux system")) ∧
    (Detect "darwin" marker userOk =
       (if userOk then .ok ProviderKind.launchd
        else .error "failed to get current user")) ∧
    (goos ≠ "darwin" → goos ≠ "linux" →
       Detect goos marker userOk = .error ("unsupported platform: " ++ goos)) := by
  refine ⟨by simp [Detect], by simp [Detect], ?_⟩
  intro h1 h2
  simp [Detect, h1, h2]

/-- C5 witness: an unsupported system is a fatal error. -/
theorem claim_C5_witness :
    Detect "plan9" true true = .error ("unsupported platform: " ++ "plan9") :=
  (claim_C5_detect_amended "plan9" true true).2.2 (by decide) (by decide)

/-- C6: for both providers, CreateService with an empty name or an
empty program returns the validation error with the file set unchanged
and an empty effect trace - no directory creation, no stat, no write,
no subprocess. -/
theorem claim_C6_validation_first (cfg : ServiceConfig) (scope : Scope)
    (home userHome uid : String) (fs : List String)
    (m1 w1 : Bool) (ok : LaunchdProvider.StartStep → Bool)
    (m2 w2 r2 e2 s2 : Bool) :
    (cfg.name = "" →
       LaunchdProvider.CreateService cfg scope userHome uid fs m1 w1 ok =
         (.error "service name is required", fs, []) ∧
       SystemdProvider.CreateService cfg scope home fs m2 w2 r2 e2 s2 =
         (.error "service name is required", fs, [])) ∧
    (cfg.name ≠ "" → cfg.program = "" →
       LaunchdProvider.CreateService cfg scope userHome uid fs m1 w1 ok =
         (.error "program path is required", fs, []) ∧
       SystemdProvider.CreateService cfg scope home fs m2 w2 r2 e2 s2 =
         (.error "program path is required", fs, [])) := by
  constructor
  · intro h
    constructor <;>
      simp [LaunchdProvider.CreateService, SystemdProvider.CreateService, h]
  · intro h1 h2
    constructor <;>
      simp [LaunchdProvider.CreateService, SystemdProvider.CreateService, h1, h2]

/-- C6 witness: an empty name is rejected with no effects, on both
providers. -/
theorem claim_C6_witness :
    LaunchdProvider.CreateService { name := "", program := "/bin/x" } ScopeUser
        "/h" "501" [] true true (fun _ => true) =
      (.error "service name is required", [], []) ∧
    SystemdProvider.CreateService { name := "", program := "/bin/x" } ScopeUser
        "/h" [] true true true true true =
      (.error "service name is required", [], []) :=
  (claim_C6_validation_first { name := "", program := "/bin/x" } ScopeUser
    "/h" "/h" "501" [] true true (fun _ => true) true true true true true).1 rfl

theorem filter_ne_of_not_mem {α : Type} [DecidableEq α] (l : List α) (x : α)
    (h : x ∉ l) : l.filter (fun p => p ≠ x) = l := by
  induction l with
  | nil => rfl
  | cons a t ih =>
    simp only [List.mem_cons, not_or] at h
    have ha : a ≠ x := fun hEq => h.1 hEq.symm
    rw [List.filter_cons, if_pos (by simp [ha]), ih h.2]

/-- C7: when the systemd reload fails right after the unit file was
written, CreateService removes the just-written file (the resulting
file set equals the original one, so the descriptor is gone and a
subsequent lookup cannot find it) and reports failure. -/
theorem claim_C7_reload_rollback (cfg : ServiceConfig) (scope : Scope)
    (home : String) (fs : List String) (e2 s2 : Bool)
    (hname : cfg.name ≠ "") (hprog : cfg.program ≠ "")
    (hscope : scope = ScopeUser ∨ scope = ScopeSystem)
    (hnew : SystemdProvider.unitPath cfg.name scope home ∉ fs) :
    SystemdProvider.CreateService cfg scope home fs true true false e2 s2 =
      (.error "failed to reload systemd", fs,
       [.mkdirAll (SystemdProvider.targetDir scope home),
        .statFile (SystemdProvider.unitPath cfg.name scope home),
        .writeFile (SystemdProvider.unitPath cfg.name scope home),
        .runCmd (SystemdProvider.sysArgs scope ["daemon-reload"]),
        .removeFile (SystemdProvider.unitPath cfg.name scope home)]) := by
  simp [SystemdProvider.CreateService, hname, hprog, hscope, hnew]
  exact fun a ha hEq => hnew (hEq ▸ ha)

/-- C7 witness. -/
theorem claim_C7_witness :
    SystemdProvider.CreateService { name := "web", program := "/bin/w" } ScopeSystem
        "/h" [] true true false true true =
      (.error "failed to reload systemd", [],
       [.mkdirAll "/etc/systemd/system",
        .statFile "/etc/systemd/system/web.service",
        .writeFile "/etc/systemd/system/web.service",
        .runCmd ["systemctl", "daemon-reload"],
        .removeFile "/etc/systemd/system/web.service"]) := by
  have h := claim_C7_reload_rollback { name := "web", program := "/bin/w" }
    ScopeSystem "/h" [] true true (by decide) (by decide) (Or.inr rfl) (by decide)
  rw [h]
  rfl

/-- C8: with runAtLoad set, after the descriptor was written and reload
succeeded, a failing enable or a failing start makes CreateService
return that error while the descriptor file stays in the resulting
file set. -/
theorem claim_C8_partial_failure_keeps_descriptor (cfg : ServiceConfig)
    (scope : Scope) (home : String) (fs : List String) (s2 : Bool)
    (hname : cfg.name ≠ "") (hprog : cfg.program ≠ "")
    (hscope : scope = ScopeUser ∨ scope = ScopeSystem)
    (hnew : SystemdProvider.unitPath cfg.name scope home ∉ fs)
    (hrun : cfg.runAtLoad = true) :
    (SystemdProvider.CreateService cfg scope home fs true true true false s2 =
       (.error "failed to enable service",
        SystemdProvider.unitPath cfg.name scope home :: fs,
        [.mkdirAll (SystemdProvider.targetDir scope home),
         .statFile (SystemdProvider.unitPath cfg.name scope home),
         .writeFile (SystemdProvider.unitPath cfg.name scope home),
         .runCmd (SystemdProvider.sysArgs scope ["daemon-reload"]),
         .runCmd (SystemdProvider.sysArgs scope
           ["enable", SystemdProvider.serviceFileName cfg.name])])) ∧
    (SystemdProvider.CreateService cfg scope home fs true true true true false =
       (.error "failed to start service",
        SystemdProvider.unitPath cfg.name scope home :: fs,
        [.mkdirAll (SystemdProvider.targetDir scope home),
         .statFile (SystemdProvider.unitPath cfg.name scope home),
         .writeFile (SystemdProvider.unitPath cfg.name scope home),
         .runCmd (SystemdProvider.sysArgs scope ["daemon-reload"]),
         .runCmd (SystemdProvider.sysArgs scope
           ["enable", SystemdProvider.serviceFileName cfg.name]),
         .runCmd (SystemdProvider.sysArgs scope
           ["start", SystemdProvider.serviceFileName cfg.name])])) ∧
    SystemdProvider.unitPath cfg.name scope home ∈
      (SystemdProvider.CreateService cfg scope home fs true true true false s2).2.1 := by
  refine ⟨?_, ?_, ?_⟩
  · simp [SystemdProvider.CreateService, hname, hprog, hscope, hnew, hrun]
  · simp [SystemdProvider.CreateService, hname, hprog, hscope, hnew, hrun]
  · simp [SystemdProvider.CreateService, hname, hprog, hscope, hnew, hrun]

/-- C8 witness. -/
theorem claim_C8_witness :
    SystemdProvider.CreateService
        { name := "web", program := "/bin/w", runAtLoad := true } ScopeSystem
        "/h" [] true true true false true =
      (.error "failed to enable service", ["/etc/systemd/system/web.service"],
       [.mkdirAll "/etc/systemd/system",
        .statFile "/etc/systemd/system/web.service",
        .writeFile "/etc/systemd/system/web.service",
        .runCmd ["systemctl", "daemon-reload"],
        .runCmd ["systemctl", "enable", "web.service"]]) := by
  have h := (claim_C8_partial_failure_keeps_descriptor
    { name := "web", program := "/bin/w", runAtLoad := true } ScopeSystem "/h" [] true
    (by decide) (by decide) (Or.inr rfl) (by decide) rfl).1
  rw [h]
  rfl

/-- C9: systemd DeleteService is NotFound when the descriptor is absent
from the resolved scope directory; otherwise it runs stop then disable
(their outcomes are discarded by the source), then deletes the file -
a hard failure when deletion fails - then reloads, and a reload
failure is a hard error even though the file set no longer contains
the descriptor at that point. -/
theorem claim_C9_delete_service (name : String) (scope : Scope) (home : String)
    (fs : List String) (rm rl : Bool)
    (hscope : scope = ScopeUser ∨ scope = ScopeSystem) :
    (SystemdProvider.unitPath name scope home ∉ fs →
       SystemdProvider.DeleteService name scope home fs rm rl =
         (.error ("service not found: " ++ name), fs,
          [.statFile (SystemdProvider.unitPath name scope home)])) ∧
    (SystemdProvider.unitPath name scope home ∈ fs → rm = false →
       SystemdProvider.DeleteService name scope home fs rm rl =
         (.error "failed to delete service file", fs,
          [.statFile (SystemdProvider.unitPath name scope home),
           .runCmd (SystemdProvider.sysArgs scope
             ["stop", SystemdProvider.serviceFileName name]),
           .runCmd (SystemdProvider.sysArgs scope
             ["disable", SystemdProvider.serviceFileName name]),
           .removeFile (SystemdProvider.unitPath name scope home)])) ∧
    (SystemdProvider.unitPath name scope home ∈ fs → rm = true → rl = false →
       SystemdProvider.DeleteService name scope home fs rm rl =
         (.error "failed to reload systemd",
          fs.filter (fun p => p ≠ SystemdProvider.unitPath name scope home),
          [.statFile (SystemdProvider.unitPath name scope home),
           .runCmd (SystemdProvider.sysArgs scope
             ["stop", SystemdProvider.serviceFileName name]),
           .runCmd (SystemdProvider.sysArgs scope
             ["disable", SystemdProvider.serviceFileName name]),
           .removeFile (SystemdProvider.unitPath name scope home),
           .runCmd (SystemdProvider.sysArgs scope ["daemon-reload"])]) ∧
       SystemdProvider.unitPath name scope home ∉
         fs.filter (fun p => p ≠ SystemdProvider.unitPath name scope home)) ∧
    (SystemdProvider.unitPath name scope home ∈ fs → rm = true → rl = true →
       SystemdProvider.DeleteService name scope home fs rm rl =
         (.ok (),
          fs.filter (fun p => p ≠ SystemdProvider.unitPath name scope home),
          [.statFile (SystemdProvider.unitPath name scope home),
           .runCmd (SystemdProvider.sysArgs scope
             ["stop", SystemdProvider.serviceFileName name]),
           .runCmd (SystemdProvider.sysArgs scope
             ["disable", SystemdProvider.serviceFileName name]),
           .removeFile (SystemdProvider.unitPath name scope home),
           .runCmd (SystemdProvider.sysArgs scope ["daemon-reload"])])) := by
  refine ⟨?_, ?_, ?_, ?_⟩
  · intro h
    simp [SystemdProvider.DeleteService, hscope, h]
  · intro h hrm
    subst hrm
    simp [SystemdProvider.DeleteService, hscope, h]
  · intro h hrm hrl
    subst hrm
    subst hrl
    refine ⟨by simp [SystemdProvider.DeleteService, hscope, h], ?_⟩
    simp [List.mem_filter]
  · intro h hrm hrl
    subst hrm
    subst hrl
    simp [SystemdProvider.DeleteService, hscope, h]

/-- C9 witness: reload failure after successful deletion is a hard
error with the descriptor already removed. -/
theorem claim_C9_witness :
    SystemdProvider.DeleteService "web" ScopeSystem "/h"
        ["/etc/systemd/system/web.service"] true false =
      (.error "failed to reload systemd", [],
       [.statFile "/etc/systemd/system/web.service",
        .runCmd ["systemctl", "stop", "web.service"],
        .runCmd ["systemctl", "disable", "web.service"],
        .removeFile "/etc/systemd/system/web.service",
        .runCmd ["systemctl", "daemon-reload"]]) := by
  have h := ((claim_C9_delete_service "web" ScopeSystem "/h"
    ["/etc/systemd/system/web.service"] true false (Or.inr rfl)).2.2.1
    (by decide) rfl rfl).1
  rw [h]
  rfl

theorem findServiceLoop_eq_find? (name : String) (l : List Service) :
    SystemdProvider.findServiceLoop name l =
      match l.find? (fun s => s.name == name || s.name ++ ".service" == name) with
      | some svc => .ok svc
      | none => .error ("service not found: " ++ name) := by
  induction l with
  | nil => rfl
  | cons s t ih =>
    by_cases h : s.name = name ∨ s.name ++ ".service" = name
    · have hb : (s.name == name || s.name ++ ".service" == name) = true := by
        simpa using h
      have hfind : List.find? (fun s => s.name == name || s.name ++ ".service" == name)
          (s :: t) = some s := by
        simp [List.find?_cons, hb]
      rw [SystemdProvider.findServiceLoop, if_pos h, hfind]
    · have hb : (s.name == name || s.name ++ ".service" == name) = false := by
        simpa using h
      have hfind : List.find? (fun s => s.name == name || s.name ++ ".service" == name)
          (s :: t) = List.find? (fun s => s.name == name || s.name ++ ".service" == name) t := by
        simp [List.find?_cons, hb]
      rw [SystemdProvider.findServiceLoop, if_neg h, hfind, ih]

/-- C10: systemd GetService returns the first listed service whose
logical name equals the requested name directly or with ".service"
appended - so both spellings are accepted - and a not-found error
exactly when no listed service matches. -/
theorem claim_C10_get_service (units : List SystemdUnit)
    (isEnabled : String → Bool) (name : String) (scope : Scope) :
    (SystemdProvider.GetService units isEnabled name scope =
       match (SystemdProvider.ListServices units isEnabled scope).find?
           (fun s => s.name == name || s.name ++ ".service" == name) with
       | some svc => .ok svc
       | none => .error ("service not found: " ++ name)) ∧
    ((∃ svc, SystemdProvider.GetService units isEnabled name scope = .ok svc) ↔
       ∃ svc ∈ SystemdProvider.ListServices units isEnabled scope,
         svc.name = name ∨ svc.name ++ ".service" = name) := by
  have h1 := findServiceLoop_eq_find? name (SystemdProvider.ListServices units isEnabled scope)
  refine ⟨h1, ?_⟩
  rw [SystemdProvider.GetService, h1]
  rcases hf : (SystemdProvider.ListServices units isEnabled scope).find?
      (fun s => s.name == name || s.name ++ ".service" == name) with _ | svc
  · rw [hf]
    simp only [List.find?_eq_none] at hf
    constructor
    · rintro ⟨svc, hsvc⟩
      cases hsvc
    · rintro ⟨svc, hmem, hp⟩
      exact absurd (show (svc.name == name || svc.name ++ ".service" == name) = true by
        simpa using hp) (by simpa using hf svc hmem)
  · rw [hf]
    have hmem := List.mem_of_find?_eq_some hf
    have hp := List.find?_some hf
    constructor
    · intro _
      exact ⟨svc, hmem, by simpa using hp⟩
    · intro _
      exact ⟨svc, rfl⟩

/-! ### Escape, tokenizer and rendering lemmas -/

theorem replaceAllChar_append (c : Char) (rep a b : List Char) :
    replaceAllChar c rep (a ++ b) = replaceAllChar c rep a ++ replaceAllChar c rep b := by
  induction a with
  | nil => rfl
  | cons x xs ih =>
    by_cases h : x = c <;> simp [replaceAllChar, h, ih]

theorem escapeXML_append (a b : List Char) :
    escapeXML (a ++ b) = escapeXML a ++ escapeXML b := by
  simp [escapeXML, replaceAllChar_append]

theorem escapeXML_single (c : Char) : escapeXML [c] = escChar c := by
  by_cases h1 : c = '&'
  · subst h1; decide
  · by_cases h2 : c = '<'
    · subst h2; decide
    · by_cases h3 : c = '>'
      · subst h3; decide
      · by_cases h4 : c = '\''
        · subst h4; decide
        · by_cases h5 : c = '"'
          · subst h5; decide
          · simp [escapeXML, replaceAllChar, escChar, h1, h2, h3, h4, h5]

theorem escapeXML_cons (c : Char) (s : List Char) :
    escapeXML (c :: s) = escChar c ++ escapeXML s := by
  have : (c :: s) = [c] ++ s := rfl
  rw [this, escapeXML_append, escapeXML_single]

theorem escChar_no_angle (c : Char) : '<' ∉ escChar c ∧ '>' ∉ escChar c := by
  by_cases h1 : c = '&'
  · subst h1; decide
  · by_cases h2 : c = '<'
    · subst h2; decide
    · by_cases h3 : c = '>'
      · subst h3; decide
      · by_cases h4 : c = '\''
        · subst h4; decide
        · by_cases h5 : c = '"'
          · subst h5; decide
          · simp [escChar, h1, h2, h3, h4, h5]
            exact ⟨fun h => h2 h.symm, fun h => h3 h.symm⟩

theorem escapeXML_no_lt (s : List Char) : '<' ∉ escapeXML s := by
  induction s with
  | nil => simp [escapeXML, replaceAllChar]
  | cons c t ih =>
    rw [escapeXML_cons]
    simp only [List.mem_append]
    rintro (h | h)
    · exact (escChar_no_angle c).1 h
    · exact ih h

theorem escapeXML_no_gt (s : List Char) : '>' ∉ escapeXML s := by
  induction s with
  | nil => simp [escapeXML, replaceAllChar]
  | cons c t ih =>
    rw [escapeXML_cons]
    simp only [List.mem_append]
    rintro (h | h)
    · exact (escChar_no_angle c).2 h
    · exact ih h

theorem unescape_escape (s : List Char) : unescapeXML (escapeXML s) = s := by
  induction s with
  | nil => simp [escapeXML, replaceAllChar, unescapeXML]
  | cons c t ih =>
    rw [escapeXML_cons]
    by_cases h1 : c = '&'
    · subst h1
      show unescapeXML ('&' :: ('a' :: 'm' :: 'p' :: ';' :: escapeXML t)) = _
      rw [unescapeXML]
      simp [List.isPrefixOf, str, ih]
    · by_cases h2 : c = '<'
      · subst h2
        show unescapeXML ('&' :: ('l' :: 't' :: ';' :: escapeXML t)) = _
        rw [unescapeXML]
        simp [List.isPrefixOf, str, ih]
      · by_cases h3 : c = '>'
        · subst h3
          show unescapeXML ('&' :: ('g' :: 't' :: ';' :: escapeXML t)) = _
          rw [unescapeXML]
          simp [List.isPrefixOf, str, ih]
        · by_cases h4 : c = '\''
          · subst h4
            show unescapeXML ('&' :: ('a' :: 'p' :: 'o' :: 's' :: ';' :: escapeXML t)) = _
            rw [unescapeXML]
            simp [List.isPrefixOf, str, ih]
          · by_cases h5 : c = '"'
            · subst h5
              show unescapeXML ('&' :: ('q' :: 'u' :: 'o' :: 't' :: ';' :: escapeXML t)) = _
              rw [unescapeXML]
              simp [List.isPrefixOf, str, ih]
            · have hc : escChar c = [c] := by simp [escChar, h1, h2, h3, h4, h5]
              rw [hc]
              show unescapeXML (c :: escapeXML t) = _
              rw [unescapeXML]
              simp [h1, ih]

theorem takeWhile_append_stop (p : Char → Bool) (l : List Char) (x : Char) (xs : List Char)
    (hl : ∀ c ∈ l, p c = true) (hx : p x = false) :
    (l ++ x :: xs).takeWhile p = l ∧ (l ++ x :: xs).dropWhile p = x :: xs := by
  induction l with
  | nil => simp [List.takeWhile_cons, List.dropWhile_cons, hx]
  | cons a t ih =>
    have ha := hl a (by simp)
    have iht := ih (fun c hc => hl c (by simp [hc]))
    simp [List.takeWhile_cons, List.dropWhile_cons, ha, iht.1, iht.2]

theorem takeWhile_all (p : Char → Bool) (l : List Char)
    (hl : ∀ c ∈ l, p c = true) :
    l.takeWhile p = l ∧ l.dropWhile p = [] := by
  induction l with
  | nil => simp
  | cons a t ih =>
    have ha := hl a (by simp)
    have iht := ih (fun c hc => hl c (by simp [hc]))
    simp [List.takeWhile_cons, List.dropWhile_cons, ha, iht.1, iht.2]

theorem tokenize_nil : tokenize [] = [] := by
  rw [tokenize]

theorem tokenize_tag (n rest : List Char) (h : ∀ c ∈ n, c ≠ '>') :
    tokenize ('<' :: (n ++ '>' :: rest)) = XTok.tag n :: tokenize rest := by
  have ht := takeWhile_append_stop (fun ch => decide (ch ≠ '>')) n '>' rest
    (fun c hc => by simp [h c hc]) (by simp)
  rw [tokenize, if_pos rfl, ht.1, ht.2]
  simp only [List.drop_succ_cons, List.drop_zero]

theorem tokenize_txt_tag (s : List Char) (rest : List XTok) (m : List Char)
    (hne : s ≠ []) (h : ∀ c ∈ s, c ≠ '<') :
    tokenize (s ++ render (XTok.tag m :: rest)) =
      XTok.txt s :: tokenize (render (XTok.tag m :: rest)) := by
  rcases s with _ | ⟨c, t⟩
  · exact absurd rfl hne
  · have hc := h c (by simp)
    have ht := takeWhile_append_stop (fun ch => decide (ch ≠ '<')) t '<'
      (m ++ '>' :: render rest)
      (fun d hd => by simp [h d (by simp [hd])]) (by simp)
    show tokenize (c :: (t ++ ('<' :: (m ++ '>' :: render rest)))) = _
    rw [tokenize, if_neg hc, ht.1, ht.2]
    rfl

theorem tokenize_txt_end (s : List Char) (hne : s ≠ []) (h : ∀ c ∈ s, c ≠ '<') :
    tokenize s = [XTok.txt s] := by
  rcases s with _ | ⟨c, t⟩
  · exact absurd rfl hne
  · have hc := h c (by simp)
    have ht := takeWhile_all (fun ch => decide (ch ≠ '<')) t
      (fun d hd => by simp [h d (by simp [hd])])
    rw [tokenize, if_neg hc, ht.1, ht.2, tokenize_nil]

theorem tokenize_render (toks : List XTok) (h1 : ∀ t ∈ toks, TokOk t)
    (h2 : toks.Chain' TokSep) : tokenize (render toks) = toks := by
  induction toks with
  | nil => simp [render, tokenize]
  | cons t rest ih =>
    have ht := h1 t (by simp)
    have hrest : ∀ u ∈ rest, TokOk u := fun u hu => h1 u (by simp [hu])
    rcases t with n | s
    · rw [render, tokenize_tag n (render rest) ht, ih hrest h2.tail]
    · rcases ht with ⟨hne, hlt⟩
      rcases rest with _ | ⟨b, rest'⟩
      · simp only [render, List.append_nil]
        rw [tokenize_txt_end s hne hlt]
      · have hsep : TokSep (XTok.txt s) b := (List.chain'_cons.1 h2).1
        have hb : b.isTxt = false := hsep rfl
        rcases b with m | s2
        · rw [render, tokenize_txt_tag s rest' m hne hlt,
            ih hrest (List.chain'_cons.1 h2).2]
        · simp [XTok.isTxt] at hb

theorem render_append (a b : List XTok) : render (a ++ b) = render a ++ render b := by
  induction a with
  | nil => rfl
  | cons t rest ih =>
    rcases t with n | s <;> simp [render, ih]

theorem render_optTxt (v : List Char) : render (optTxt v) = v := by
  by_cases h : v = [] <;> simp [optTxt, h, render]

theorem render_strToks (v : List Char) :
    render (strToks v) = str "<string>" ++ v ++ str "</string>" := by
  by_cases h : v = []
  · subst h
    rfl
  · simp only [strToks, optTxt, if_neg h]
    rfl

theorem render_entryToks (k v : List Char) :
    render (entryToks k v) =
      str "\n\t<key>" ++ k ++ str "</key>\n\t<string>" ++ v ++ str "</string>" := by
  rw [entryToks, render_append, render_strToks]
  have h5 : render [XTok.txt (str "\n\t"), XTok.tag (str "key"), XTok.txt k,
      XTok.tag (str "/key"), XTok.txt (str "\n\t")] =
      str "\n\t" ++ ('<' :: (str "key" ++ '>' ::
        (k ++ ('<' :: (str "/key" ++ '>' :: (str "\n\t" ++ ([] : List Char))))))) := rfl
  rw [h5]
  simp only [List.cons_append, List.append_assoc, List.append_nil]
  rfl

theorem render_argToks (v : List Char) :
    render (argToks v) = str "\n\t\t<string>" ++ v ++ str "</string>" := by
  show str "\n\t\t" ++ render (strToks v) = _
  rw [render_strToks]
  simp only [List.append_assoc]
  rfl

theorem render_envPairToks (k v : List Char) :
    render (envPairToks (k, v)) =
      str "\n\t\t<key>" ++ k ++ str "</key>\n\t\t<string>" ++ v ++ str "</string>" := by
  show str "\n\t\t" ++ ('<' :: (str "key" ++ '>' ::
      render (optTxt k ++ (XTok.tag (str "/key") :: XTok.txt (str "\n\t\t") :: strToks v)))) = _
  rw [render_append, render_optTxt]
  have hx : render (XTok.tag (str "/key") :: XTok.txt (str "\n\t\t") :: strToks v) =
      '<' :: (str "/key" ++ '>' :: (str "\n\t\t" ++ render (strToks v))) := rfl
  rw [hx, render_strToks]
  simp only [List.cons_append, List.append_assoc]
  rfl

theorem args_telescope {α : Type} (f : α → List Char) (args : List α) (tail : List Char) :
    render (args.flatMap (fun a => argToks (f a))) ++ (str "\n\t" ++ tail) =
      str "\n" ++ (args.flatMap
        (fun a => str "\t\t<string>" ++ f a ++ str "</string>\n") ++ (str "\t" ++ tail)) := by
  induction args with
  | nil => rfl
  | cons a t ih =>
    rw [List.flatMap_cons, render_append, render_argToks, List.flatMap_cons,
      List.append_assoc, List.append_assoc, ih]
    simp only [List.append_assoc]
    rfl

theorem env_telescope {α : Type} (fk fv : α → List Char) (env : List α) (tail : List Char) :
    render (env.flatMap (fun kv => envPairToks (fk kv, fv kv))) ++ (str "\n\t" ++ tail) =
      str "\n" ++ (env.flatMap
        (fun kv => str "\t\t<key>" ++ fk kv ++ str "</key>\n\t\t<string>"
          ++ fv kv ++ str "</string>\n") ++ (str "\t" ++ tail)) := by
  induction env with
  | nil => rfl
  | cons a t ih =>
    rw [List.flatMap_cons, render_append, render_envPairToks, List.flatMap_cons,
      List.append_assoc, List.append_assoc, ih]
    simp only [List.append_assoc]
    rfl

/-! ### Newline-shift lemmas: each rendered block carries its leading
newline, which the generator text attaches to the previous line. -/

theorem nil_shift (Y : List Char) :
    render ([] : List XTok) ++ (str "\n" ++ Y) = str "\n" ++ (([] : List Char) ++ Y) := rfl

theorem entry_shift (k v Y : List Char) :
    render (entryToks k v) ++ (str "\n" ++ Y) =
      str "\n" ++ ((str "\t<key>" ++ (k ++ (str "</key>\n\t<string>" ++
        (v ++ str "</string>\n")))) ++ Y) := by
  rw [render_entryToks]
  simp only [List.append_assoc]
  rfl

theorem post_render :
    render [XTok.txt (str "\n"), XTok.tag (str "/dict"), XTok.txt (str "\n"),
      XTok.tag (str "/plist"), XTok.txt (str "\n")] =
      str "\n" ++ str "</dict>\n</plist>\n" := rfl

theorem run_shift (b : Bool) (Y : List Char) :
    render [XTok.txt (str "\n\t"), XTok.tag (str "key"), XTok.txt (str "RunAtLoad"),
      XTok.tag (str "/key"), XTok.txt (str "\n\t"),
      XTok.tag (if b then str "true/" else str "false/")] ++ (str "\n" ++ Y) =
      str "\n" ++ (str "\t<key>RunAtLoad</key>\n\t<" ++
        ((if b then str "true" else str "false") ++ (str "/>\n" ++ Y))) := by
  cases b <;> rfl

theorem ka_shift (Y : List Char) :
    render [XTok.txt (str "\n\t"), XTok.tag (str "key"), XTok.txt (str "KeepAlive"),
      XTok.tag (str "/key"), XTok.txt (str "\n\t"), XTok.tag (str "true/")] ++
        (str "\n" ++ Y) =
      str "\n" ++ (str "\t<key>KeepAlive</key>\n\t<true/>\n" ++ Y) := rfl

theorem args_shift (p : List Char) (args : List String) (Y : List Char) :
    render ([XTok.txt (str "\n\t"), XTok.tag (str "key"), XTok.txt (str "ProgramArguments"),
        XTok.tag (str "/key"), XTok.txt (str "\n\t"), XTok.tag (str "array"),
        XTok.txt (str "\n\t\t")] ++
      (strToks p ++
        (args.flatMap (fun a => argToks (escapeXML (str a))) ++
          [XTok.txt (str "\n\t"), XTok.tag (str "/array")]))) ++ (str "\n" ++ Y) =
      str "\n" ++ ((str "\t<key>ProgramArguments</key>\n\t<array>\n\t\t<string>" ++
        (p ++ (str "</string>\n" ++
          (args.flatMap (fun arg =>
            str "\t\t<string>" ++ (escapeXML (str arg) ++ str "</string>\n")) ++
            str "\t</array>\n")))) ++ Y) := by
  repeat rw [render_append]
  rw [render_strToks]
  simp only [render]
  simp only [List.cons_append, List.append_assoc, List.append_nil]
  rw [args_telescope]
  simp only [List.cons_append, List.append_assoc, List.append_nil, List.nil_append]
  rfl

theorem env_shift (env : List (String × String)) (Y : List Char) :
    render ([XTok.txt (str "\n\t"), XTok.tag (str "key"),
        XTok.txt (str "EnvironmentVariables"),
        XTok.tag (str "/key"), XTok.txt (str "\n\t"), XTok.tag (str "dict")] ++
      (env.flatMap (fun kv => envPairToks (escapeXML (str kv.1), escapeXML (str kv.2))) ++
        [XTok.txt (str "\n\t"), XTok.tag (str "/dict")])) ++ (str "\n" ++ Y) =
      str "\n" ++ ((str "\t<key>EnvironmentVariables</key>\n\t<dict>\n" ++
        (env.flatMap (fun kv => str "\t\t<key>" ++ (escapeXML (str kv.1) ++
          (str "</key>\n\t\t<string>" ++ (escapeXML (str kv.2) ++ str "</string>\n")))) ++
          str "\t</dict>\n")) ++ Y) := by
  repeat rw [render_append]
  simp only [render]
  simp only [List.cons_append, List.append_assoc, List.append_nil]
  rw [env_telescope]
  simp only [List.cons_append, List.append_assoc, List.append_nil, List.nil_append]
  rfl

theorem head_shift (v Y : List Char) :
    render [XTok.tag (str "?xml version=\"1.0\" encoding=\"UTF-8\"?"), XTok.txt (str "\n"),
      XTok.tag (str "!DOCTYPE plist PUBLIC \"-//Apple//DTD PLIST 1.0//EN\" \"http://www.apple.com/DTDs/PropertyList-1.0.dtd\""),
      XTok.txt (str "\n"), XTok.tag (str "plist version=\"1.0\""), XTok.txt (str "\n"),
      XTok.tag (str "dict")] ++ (render (entryToks (str "Label") v) ++ (str "\n" ++ Y)) =
      str "<?xml version=\"1.0\" encoding=\"UTF-8\"?>\n<!DOCTYPE plist PUBLIC \"-//Apple//DTD PLIST 1.0//EN\" \"http://www.apple.com/DTDs/PropertyList-1.0.dtd\">\n<plist version=\"1.0\">\n<dict>\n\t<key>Label</key>\n\t<string>" ++
        (v ++ (str "</string>\n" ++ Y)) := by
  rw [render_entryToks]
  simp only [render]
  simp only [List.cons_append, List.append_assoc, List.append_nil]
  rfl

theorem shift_ite {c : Prop} [Decidable c] {B B2 : List XTok} {g g2 : List Char}
    (h : ∀ Y, render B ++ (str "\n" ++ Y) = str "\n" ++ (g ++ Y))
    (h2 : ∀ Y, render B2 ++ (str "\n" ++ Y) = str "\n" ++ (g2 ++ Y)) (X : List Char) :
    render (if c then B else B2) ++ (str "\n" ++ X) =
      str "\n" ++ ((if c then g else g2) ++ X) := by
  by_cases hc : c
  · rw [if_pos hc, if_pos hc, h]
  · rw [if_neg hc, if_neg hc, h2]

set_option maxHeartbeats 2000000 in
set_option maxRecDepth 100000 in
theorem generatePlist_eq_render (cfg : ServiceConfig) :
    generatePlist cfg = render (plistToks cfg) := by
  unfold generatePlist plistToks
  repeat rw [render_append]
  simp only [List.append_assoc]
  rw [post_render]
  rw [shift_ite (entry_shift (str "StandardErrorPath")
    (escapeXML (str cfg.standardErrorPath))) nil_shift]
  rw [shift_ite (entry_shift (str "StandardOutPath")
    (escapeXML (str cfg.standardOutPath))) nil_shift]
  rw [shift_ite ka_shift nil_shift]
  rw [run_shift]
  rw [shift_ite (env_shift cfg.environment) nil_shift]
  rw [shift_ite (entry_shift (str "WorkingDirectory")
    (escapeXML (str cfg.workingDirectory))) nil_shift]
  rw [shift_ite (args_shift (escapeXML (str cfg.program)) cfg.arguments)
    (entry_shift (str "Program") (escapeXML (str cfg.program)))]
  rw [head_shift]
  rfl

/-! ### Well-formedness of the generated token stream -/

theorem allOk_append {a b : List XTok} (ha : AllOk a) (hb : AllOk b) :
    AllOk (a ++ b) := fun t ht => (List.mem_append.1 ht).elim (ha t) (hb t)

theorem allOk_ite {c : Prop} [Decidable c] {a b : List XTok}
    (ha : AllOk a) (hb : AllOk b) : AllOk (if c then a else b) := by
  split <;> assumption

theorem allOk_flatMap {α : Type} (f : α → List XTok) (l : List α)
    (h : ∀ a ∈ l, AllOk (f a)) : AllOk (l.flatMap f) := by
  intro t ht
  rcases List.mem_flatMap.1 ht with ⟨a, ha, hta⟩
  exact h a ha t hta

theorem mem_no_lt (v : List Char) (hv : '<' ∉ v) : ∀ c ∈ v, c ≠ '<' :=
  fun c hc he => hv (he ▸ hc)

theorem allOk_strToks (v : List Char) (hv : '<' ∉ v) : AllOk (strToks v) := by
  intro t ht
  by_cases h : v = []
  · rw [strToks, optTxt, if_pos h, List.nil_append] at ht
    rcases List.mem_cons.1 ht with h1 | h1
    · subst h1; decide
    · rcases List.mem_cons.1 h1 with h2 | h2
      · subst h2; decide
      · exact absurd h2 (by simp)
  · rw [strToks, optTxt, if_neg h, List.singleton_append] at ht
    rcases List.mem_cons.1 ht with h1 | h1
    · subst h1; decide
    · rcases List.mem_cons.1 h1 with h2 | h2
      · subst h2; exact ⟨h, mem_no_lt v hv⟩
      · rcases List.mem_cons.1 h2 with h3 | h3
        · subst h3; decide
        · exact absurd h3 (by simp)

theorem allOk_entryToks (k v : List Char) (hk : TokOk (XTok.txt k)) (hv : '<' ∉ v) :
    AllOk (entryToks k v) := by
  intro t ht
  rcases List.mem_append.1 ht with h1 | h1
  · simp only [List.mem_cons, List.not_mem_nil, or_false] at h1
    rcases h1 with h1 | h1 | h1 | h1 | h1 <;> subst h1 <;> first | exact hk | decide
  · exact allOk_strToks v hv t h1

theorem allOk_argToks (v : List Char) (hv : '<' ∉ v) : AllOk (argToks v) := by
  intro t ht
  rcases List.mem_cons.1 ht with h1 | h1
  · subst h1; decide
  · exact allOk_strToks v hv t h1

theorem allOk_envPairToks (k v : List Char) (hk : '<' ∉ k) (hv : '<' ∉ v) :
    AllOk (envPairToks (k, v)) := by
  intro t ht
  rcases List.mem_cons.1 ht with h1 | h1
  · subst h1; decide
  · rcases List.mem_cons.1 h1 with h2 | h2
    · subst h2; decide
    · rcases List.mem_append.1 h2 with h3 | h3
      · by_cases h : k = []
        · rw [optTxt, if_pos h] at h3
          exact absurd h3 (by simp)
        · rw [optTxt, if_neg h] at h3
          rcases List.mem_cons.1 h3 with h4 | h4
          · subst h4; exact ⟨h, mem_no_lt k hk⟩
          · exact absurd h4 (by simp)
      · rcases List.mem_cons.1 h3 with h4 | h4
        · subst h4; decide
        · rcases List.mem_cons.1 h4 with h5 | h5
          · subst h5; decide
          · exact allOk_strToks v hv t h5

theorem allOk_plistToks (cfg : ServiceConfig) : AllOk (plistToks cfg) := by
  unfold plistToks
  refine allOk_append (allOk_append (allOk_append (allOk_append (allOk_append
    (allOk_append (allOk_append (allOk_append (allOk_append
      ?_ ?_) ?_) ?_) ?_) ?_) ?_) ?_) ?_) ?_
  · decide
  · exact allOk_entryToks _ _ (by decide) (escapeXML_no_lt _)
  · refine allOk_ite (allOk_append (allOk_append (allOk_append ?_ ?_) ?_) ?_)
      (allOk_entryToks _ _ (by decide) (escapeXML_no_lt _))
    · decide
    · exact allOk_strToks _ (escapeXML_no_lt _)
    · exact allOk_flatMap _ _ (fun a _ => allOk_argToks _ (escapeXML_no_lt _))
    · decide
  · exact allOk_ite (allOk_entryToks _ _ (by decide) (escapeXML_no_lt _)) (by decide)
  · refine allOk_ite (allOk_append (allOk_append ?_ ?_) ?_) (by decide)
    · decide
    · exact allOk_flatMap _ _
        (fun kv _ => allOk_envPairToks _ _ (escapeXML_no_lt _) (escapeXML_no_lt _))
    · decide
  · cases cfg.runAtLoad <;> decide
  · exact allOk_ite (by decide) (by decide)
  · exact allOk_ite (allOk_entryToks _ _ (by decide) (escapeXML_no_lt _)) (by decide)
  · exact allOk_ite (allOk_entryToks _ _ (by decide) (escapeXML_no_lt _)) (by decide)
  · decide

theorem good_append {a b : List XTok} (ha : Good a) (hb : Good b) : Good (a ++ b) := by
  rcases ha with ⟨hc1, he1⟩
  rcases hb with ⟨hc2, he2⟩
  constructor
  · exact hc1.append hc2 (fun x hx y _ hxt => absurd hxt (by simp [he1 x hx]))
  · rcases b with _ | ⟨y, ys⟩
    · simpa using he1
    · simpa [List.getLast?_append_cons] using he2

theorem chain_good_append {a b : List XTok} (ha : Good a) (hb : b.Chain' TokSep) :
    (a ++ b).Chain' TokSep :=
  ha.1.append hb (fun x hx y _ hxt => absurd hxt (by simp [ha.2 x hx]))

theorem good_ite {c : Prop} [Decidable c] {a b : List XTok}
    (ha : Good a) (hb : Good b) : Good (if c then a else b) := by
  split <;> assumption

theorem good_nil : Good [] := ⟨List.chain'_nil, by simp⟩

theorem good_flatMap {α : Type} (f : α → List XTok) (l : List α)
    (h : ∀ a ∈ l, Good (f a)) : Good (l.flatMap f) := by
  induction l with
  | nil => exact good_nil
  | cons a t ih =>
    rw [List.flatMap_cons]
    exact good_append (h a (by simp)) (ih (fun x hx => h x (by simp [hx])))

theorem good_strToks (v : List Char) : Good (strToks v) := by
  by_cases h : v = [] <;>
    refine ⟨by simp [strToks, optTxt, h, List.chain'_cons, TokSep, XTok.isTxt],
      by simp [strToks, optTxt, h, XTok.isTxt]⟩

theorem good_entryToks (k v : List Char) : Good (entryToks k v) := by
  by_cases h : v = [] <;>
    refine ⟨by simp [entryToks, strToks, optTxt, h, List.chain'_cons, List.chain'_append,
        TokSep, XTok.isTxt],
      by simp [entryToks, strToks, optTxt, h, XTok.isTxt]⟩

theorem good_argToks (v : List Char) : Good (argToks v) := by
  by_cases h : v = [] <;>
    refine ⟨by simp [argToks, strToks, optTxt, h, List.chain'_cons, TokSep, XTok.isTxt],
      by simp [argToks, strToks, optTxt, h, XTok.isTxt]⟩

theorem good_envPairToks (k v : List Char) : Good (envPairToks (k, v)) := by
  by_cases hk : k = [] <;> by_cases hv : v = [] <;>
    refine ⟨by simp [envPairToks, strToks, optTxt, hk, hv, List.chain'_cons,
        List.chain'_append, TokSep, XTok.isTxt],
      by simp [envPairToks, strToks, optTxt, hk, hv, XTok.isTxt]⟩

theorem good_argsHead (p : List Char) :
    Good ([XTok.txt (str "\n\t"), XTok.tag (str "key"), XTok.txt (str "ProgramArguments"),
      XTok.tag (str "/key"), XTok.txt (str "\n\t"), XTok.tag (str "array"),
      XTok.txt (str "\n\t\t")] ++ strToks p) := by
  by_cases h : p = [] <;>
    refine ⟨by simp [strToks, optTxt, h, List.chain'_cons, List.chain'_append,
        TokSep, XTok.isTxt],
      by simp [strToks, optTxt, h, XTok.isTxt]⟩

theorem good_runToks (b : Bool) :
    Good [XTok.txt (str "\n\t"), XTok.tag (str "key"), XTok.txt (str "RunAtLoad"),
      XTok.tag (str "/key"), XTok.txt (str "\n\t"),
      XTok.tag (if b then str "true/" else str "false/")] := by
  cases b <;>
    exact ⟨by simp [List.chain'_cons, TokSep, XTok.isTxt], by simp [XTok.isTxt]⟩

theorem good_concrete_post : Good [XTok.txt (str "\n\t"), XTok.tag (str "/array")] :=
  ⟨by simp [List.chain'_cons, TokSep, XTok.isTxt], by simp [XTok.isTxt]⟩

theorem good_concrete_envHead :
    Good [XTok.txt (str "\n\t"), XTok.tag (str "key"),
      XTok.txt (str "EnvironmentVariables"),
      XTok.tag (str "/key"), XTok.txt (str "\n\t"), XTok.tag (str "dict")] :=
  ⟨by simp [List.chain'_cons, TokSep, XTok.isTxt], by simp [XTok.isTxt]⟩

theorem good_concrete_envEnd : Good [XTok.txt (str "\n\t"), XTok.tag (str "/dict")] :=
  ⟨by simp [List.chain'_cons, TokSep, XTok.isTxt], by simp [XTok.isTxt]⟩

theorem good_concrete_ka :
    Good [XTok.txt (str "\n\t"), XTok.tag (str "key"), XTok.txt (str "KeepAlive"),
      XTok.tag (str "/key"), XTok.txt (str "\n\t"), XTok.tag (str "true/")] :=
  ⟨by simp [List.chain'_cons, TokSep, XTok.isTxt], by simp [XTok.isTxt]⟩

theorem good_concrete_head :
    Good [XTok.tag (str "?xml version=\"1.0\" encoding=\"UTF-8\"?"), XTok.txt (str "\n"),
      XTok.tag (str "!DOCTYPE plist PUBLIC \"-//Apple//DTD PLIST 1.0//EN\" \"http://www.apple.com/DTDs/PropertyList-1.0.dtd\""),
      XTok.txt (str "\n"), XTok.tag (str "plist version=\"1.0\""), XTok.txt (str "\n"),
      XTok.tag (str "dict")] :=
  ⟨by simp [List.chain'_cons, TokSep, XTok.isTxt], by simp [XTok.isTxt]⟩

theorem chain_concrete_post :
    ([XTok.txt (str "\n"), XTok.tag (str "/dict"), XTok.txt (str "\n"),
      XTok.tag (str "/plist"), XTok.txt (str "\n")]).Chain' TokSep := by
  simp [List.chain'_cons, TokSep, XTok.isTxt]

theorem chain_plistToks (cfg : ServiceConfig) : (plistToks cfg).Chain' TokSep := by
  unfold plistToks
  refine chain_good_append (good_append (good_append (good_append (good_append
    (good_append (good_append (good_append (good_append
      ?_ ?_) ?_) ?_) ?_) ?_) ?_) ?_) ?_) chain_concrete_post
  · exact good_concrete_head
  · exact good_entryToks _ _
  · refine good_ite (good_append (good_append (good_argsHead _) ?_) good_concrete_post)
      (good_entryToks _ _)
    exact good_flatMap _ _ (fun a _ => good_argToks _)
  · exact good_ite (good_entryToks _ _) good_nil
  · refine good_ite (good_append (good_append good_concrete_envHead ?_) good_concrete_envEnd)
      good_nil
    exact good_flatMap _ _ (fun kv _ => good_envPairToks _ _)
  · exact good_runToks cfg.runAtLoad
  · exact good_ite good_concrete_ka good_nil
  · exact good_ite (good_entryToks _ _) good_nil
  · exact good_ite (good_entryToks _ _) good_nil

theorem tokenize_generatePlist (cfg : ServiceConfig) :
    tokenize (generatePlist cfg) = plistToks cfg := by
  rw [generatePlist_eq_render]
  exact tokenize_render _ (allOk_plistToks cfg) (chain_plistToks cfg)

/-! ### Parser stepping lemmas -/

theorem readEntryKey_gen (a k : List Char) (R : List XTok) :
    readEntryKey (XTok.txt a :: XTok.tag (str "key") :: XTok.txt k
      :: XTok.tag (str "/key") :: R) = some (k, R) := rfl

theorem readKeyOrEnd_gen (a k : List Char) (R : List XTok) :
    readKeyOrEnd (XTok.txt a :: XTok.tag (str "key") :: XTok.txt k
      :: XTok.tag (str "/key") :: R) = some (some k, R) := rfl

theorem strToks_nil : strToks [] = [XTok.tag (str "string"), XTok.tag (str "/string")] := rfl

theorem strToks_ne (v : List Char) (h : v ≠ []) :
    strToks v = [XTok.tag (str "string"), XTok.txt v, XTok.tag (str "/string")] := by
  rw [strToks, optTxt, if_neg h]
  rfl

theorem readStr_strToks (a v : List Char) (R : List XTok) :
    readStr (XTok.txt a :: (strToks v ++ R)) = some (v, R) := by
  by_cases h : v = []
  · subst h; rfl
  · rw [strToks_ne v h]
    rfl

theorem expectTag_gen (a t : List Char) (R : List XTok) :
    expectTag t (XTok.txt a :: XTok.tag t :: R) = some R := by
  rw [expectTag]
  show (if t = t then some R else none) = some R
  rw [if_pos rfl]

theorem readBoolTag_gen (b : Bool) (a : List Char) (R : List XTok) :
    readBoolTag (XTok.txt a :: XTok.tag (if b then str "true/" else str "false/") :: R) =
      some (b, R) := by
  cases b <;> rfl

theorem expectDictEnd_post :
    expectDictEnd [XTok.txt (str "\n"), XTok.tag (str "/dict"), XTok.txt (str "\n"),
      XTok.tag (str "/plist"), XTok.txt (str "\n")] = some () := rfl

theorem readStrings_arrEnd (R : List XTok) :
    readStrings (XTok.tag (str "/array") :: R) = some ([], R) := by
  rw [readStrings.eq_def]
  dsimp only
  rw [if_pos rfl]

theorem readEnvPairs_dictEnd (R : List XTok) :
    readEnvPairs (XTok.tag (str "/dict") :: R) = some ([], R) := by
  rw [readEnvPairs.eq_def]
  dsimp only
  rw [if_pos rfl]

theorem readStrings_blocks (vs : List (List Char)) (R : List XTok) :
    readStrings (vs.flatMap (fun v => argToks v) ++
      (XTok.txt (str "\n\t") :: XTok.tag (str "/array") :: R)) = some (vs, R) := by
  induction vs with
  | nil =>
    rw [List.flatMap_nil, List.nil_append, readStrings.eq_1, readStrings_arrEnd]
  | cons v t ih =>
    rw [List.flatMap_cons, List.append_assoc]
    by_cases h : v = []
    · subst h
      rw [argToks, strToks_nil]
      show readStrings (XTok.txt (str "\n\t\t") :: XTok.tag (str "string")
        :: XTok.tag (str "/string") :: ((t.flatMap fun v => argToks v) ++
          (XTok.txt (str "\n\t") :: XTok.tag (str "/array") :: R))) = _
      rw [readStrings.eq_1, readStrings.eq_3, if_neg (by decide), if_pos rfl,
        if_pos rfl, ih]
    · rw [argToks, strToks_ne v h]
      show readStrings (XTok.txt (str "\n\t\t") :: XTok.tag (str "string")
        :: XTok.txt v :: XTok.tag (str "/string") :: ((t.flatMap fun v => argToks v) ++
          (XTok.txt (str "\n\t") :: XTok.tag (str "/array") :: R))) = _
      rw [readStrings.eq_1, readStrings.eq_2, if_neg (by decide), if_pos rfl,
        if_pos rfl, ih]

theorem readEnvPairs_blocks (ps : List (List Char × List Char)) (R : List XTok) :
    readEnvPairs (ps.flatMap (fun kv => envPairToks kv) ++
      (XTok.txt (str "\n\t") :: XTok.tag (str "/dict") :: R)) = some (ps, R) := by
  induction ps with
  | nil =>
    rw [List.flatMap_nil, List.nil_append, readEnvPairs.eq_1, readEnvPairs_dictEnd]
  | cons kv t ih =>
    rcases kv with ⟨k, v⟩
    rw [List.flatMap_cons, List.append_assoc]
    by_cases hk : k = [] <;> by_cases hv : v = []
    · subst hk; subst hv
      rw [envPairToks, optTxt, if_pos rfl, strToks_nil]
      show readEnvPairs (XTok.txt (str "\n\t\t") :: XTok.tag (str "key")
        :: XTok.tag (str "/key") :: XTok.txt (str "\n\t\t") :: XTok.tag (str "string")
        :: XTok.tag (str "/string") :: ((t.flatMap fun kv => envPairToks kv) ++
          (XTok.txt (str "\n\t") :: XTok.tag (str "/dict") :: R))) = _
      rw [readEnvPairs.eq_1, readEnvPairs.eq_6, if_neg (by decide), if_pos rfl,
        if_pos ⟨rfl, rfl⟩, if_pos rfl, ih]
    · subst hk
      rw [envPairToks, optTxt, if_pos rfl, strToks_ne v hv]
      show readEnvPairs (XTok.txt (str "\n\t\t") :: XTok.tag (str "key")
        :: XTok.tag (str "/key") :: XTok.txt (str "\n\t\t") :: XTok.tag (str "string")
        :: XTok.txt v :: XTok.tag (str "/string") :: ((t.flatMap fun kv => envPairToks kv) ++
          (XTok.txt (str "\n\t") :: XTok.tag (str "/dict") :: R))) = _
      rw [readEnvPairs.eq_1, readEnvPairs.eq_5, if_neg (by decide), if_pos rfl,
        if_pos ⟨rfl, rfl⟩, if_pos rfl, ih]
    · subst hv
      rw [envPairToks, optTxt, if_neg hk, strToks_nil]
      show readEnvPairs (XTok.txt (str "\n\t\t") :: XTok.tag (str "key")
        :: XTok.txt k :: XTok.tag (str "/key") :: XTok.txt (str "\n\t\t")
        :: XTok.tag (str "string")
        :: XTok.tag (str "/string") :: ((t.flatMap fun kv => envPairToks kv) ++
          (XTok.txt (str "\n\t") :: XTok.tag (str "/dict") :: R))) = _
      rw [readEnvPairs.eq_1, readEnvPairs.eq_3, if_neg (by decide), if_pos rfl,
        if_pos ⟨rfl, rfl⟩, if_pos rfl, ih]
    · rw [envPairToks, optTxt, if_neg hk, strToks_ne v hv]
      show readEnvPairs (XTok.txt (str "\n\t\t") :: XTok.tag (str "key")
        :: XTok.txt k :: XTok.tag (str "/key") :: XTok.txt (str "\n\t\t")
        :: XTok.tag (str "string")
        :: XTok.txt v :: XTok.tag (str "/string") :: ((t.flatMap fun kv => envPairToks kv) ++
          (XTok.txt (str "\n\t") :: XTok.tag (str "/dict") :: R))) = _
      rw [readEnvPairs.eq_1, readEnvPairs.eq_2, if_neg (by decide), if_pos rfl,
        if_pos ⟨rfl, rfl⟩, if_pos rfl, ih]

theorem flatMap_comp_map {α β γ : Type} (f : α → β) (g : β → List γ) (l : List α) :
    l.flatMap (fun a => g (f a)) = (l.map f).flatMap g := by
  induction l with
  | nil => rfl
  | cons a t ih => simp only [List.flatMap_cons, List.map_cons, ih]

/-! ### Stage lemmas: the parser stages recover each optional section -/

theorem L_tailErr (acc : ParsedPlist) (c : Prop) [Decidable c] (v : List Char) :
    parseTailErr acc ((if c then entryToks (str "StandardErrorPath") v else []) ++
      [XTok.txt (str "\n"), XTok.tag (str "/dict"), XTok.txt (str "\n"),
       XTok.tag (str "/plist"), XTok.txt (str "\n")]) =
      some { acc with
        standardErrorPath := if c then unescapeXML v else acc.standardErrorPath } := by
  by_cases hc : c
  · rw [if_pos hc, if_pos hc]
    by_cases hv : v = []
    · subst hv; rfl
    · rw [entryToks, strToks_ne v hv]
      rfl
  · rw [if_neg hc, if_neg hc, List.nil_append]
    rfl

theorem L_tailOut (acc : ParsedPlist) (c6 : Prop) [Decidable c6] (v6 : List Char)
    (c7 : Prop) [Decidable c7] (v7 : List Char) :
    parseTailOut acc ((if c6 then entryToks (str "StandardOutPath") v6 else []) ++
      ((if c7 then entryToks (str "StandardErrorPath") v7 else []) ++
        [XTok.txt (str "\n"), XTok.tag (str "/dict"), XTok.txt (str "\n"),
         XTok.tag (str "/plist"), XTok.txt (str "\n")])) =
      some { acc with
        standardOutPath := if c6 then unescapeXML v6 else acc.standardOutPath,
        standardErrorPath := if c7 then unescapeXML v7 else acc.standardErrorPath } := by
  by_cases hc6 : c6
  · rw [if_pos hc6, if_pos hc6]
    by_cases hv : v6 = []
    · subst hv
      show parseTailErr { acc with standardOutPath := unescapeXML [] }
        ((if c7 then entryToks (str "StandardErrorPath") v7 else []) ++
          [XTok.txt (str "\n"), XTok.tag (str "/dict"), XTok.txt (str "\n"),
           XTok.tag (str "/plist"), XTok.txt (str "\n")]) = _
      rw [L_tailErr]
    · rw [entryToks, strToks_ne v6 hv]
      show parseTailErr { acc with standardOutPath := unescapeXML v6 }
        ((if c7 then entryToks (str "StandardErrorPath") v7 else []) ++
          [XTok.txt (str "\n"), XTok.tag (str "/dict"), XTok.txt (str "\n"),
           XTok.tag (str "/plist"), XTok.txt (str "\n")]) = _
      rw [L_tailErr]
  · rw [if_neg hc6, if_neg hc6, List.nil_append]
    by_cases hc7 : c7
    · rw [if_pos hc7, if_pos hc7]
      by_cases hv : v7 = []
      · subst hv; rfl
      · rw [entryToks, strToks_ne v7 hv]
        rfl
    · rw [if_neg hc7, if_neg hc7, List.nil_append]
      rfl

theorem L_tailKA (acc : ParsedPlist) (b5 : Bool) (c6 : Prop) [Decidable c6]
    (v6 : List Char) (c7 : Prop) [Decidable c7] (v7 : List Char) :
    parseTailKA acc ((if b5 then
        [XTok.txt (str "\n\t"), XTok.tag (str "key"), XTok.txt (str "KeepAlive"),
         XTok.tag (str "/key"), XTok.txt (str "\n\t"), XTok.tag (str "true/")]
      else []) ++
      ((if c6 then entryToks (str "StandardOutPath") v6 else []) ++
        ((if c7 then entryToks (str "StandardErrorPath") v7 else []) ++
          [XTok.txt (str "\n"), XTok.tag (str "/dict"), XTok.txt (str "\n"),
           XTok.tag (str "/plist"), XTok.txt (str "\n")]))) =
      some { acc with
        keepAlive := if b5 then true else acc.keepAlive,
        standardOutPath := if c6 then unescapeXML v6 else acc.standardOutPath,
        standardErrorPath := if c7 then unescapeXML v7 else acc.standardErrorPath } := by
  cases b5
  · rw [if_neg (by simp), List.nil_append]
    by_cases hc6 : c6
    · rw [if_pos hc6, if_pos hc6]
      by_cases hv : v6 = []
      · subst hv
        show parseTailErr { acc with standardOutPath := unescapeXML [] }
          ((if c7 then entryToks (str "StandardErrorPath") v7 else []) ++
            [XTok.txt (str "\n"), XTok.tag (str "/dict"), XTok.txt (str "\n"),
             XTok.tag (str "/plist"), XTok.txt (str "\n")]) = _
        rw [L_tailErr]
        rfl
      · rw [entryToks, strToks_ne v6 hv]
        show parseTailErr { acc with standardOutPath := unescapeXML v6 }
          ((if c7 then entryToks (str "StandardErrorPath") v7 else []) ++
            [XTok.txt (str "\n"), XTok.tag (str "/dict"), XTok.txt (str "\n"),
             XTok.tag (str "/plist"), XTok.txt (str "\n")]) = _
        rw [L_tailErr]
        rfl
    · rw [if_neg hc6, if_neg hc6, List.nil_append]
      by_cases hc7 : c7
      · rw [if_pos hc7, if_pos hc7]
        by_cases hv : v7 = []
        · subst hv
          rfl
        · rw [entryToks, strToks_ne v7 hv]
          rfl
      · rw [if_neg hc7, if_neg hc7, List.nil_append]
        rfl
  · rw [if_pos rfl]
    show parseTailOut { acc with keepAlive := true }
      ((if c6 then entryToks (str "StandardOutPath") v6 else []) ++
        ((if c7 then entryToks (str "StandardErrorPath") v7 else []) ++
          [XTok.txt (str "\n"), XTok.tag (str "/dict"), XTok.txt (str "\n"),
           XTok.tag (str "/plist"), XTok.txt (str "\n")])) = _
    rw [L_tailOut]
    rfl

theorem L_run (acc : ParsedPlist) (b4 b5 : Bool) (c6 : Prop) [Decidable c6]
    (v6 : List Char) (c7 : Prop) [Decidable c7] (v7 : List Char) :
    parseRun acc (XTok.txt (str "\n\t")
      :: XTok.tag (if b4 then str "true/" else str "false/")
      :: ((if b5 then
          [XTok.txt (str "\n\t"), XTok.tag (str "key"), XTok.txt (str "KeepAlive"),
           XTok.tag (str "/key"), XTok.txt (str "\n\t"), XTok.tag (str "true/")]
        else []) ++
        ((if c6 then entryToks (str "StandardOutPath") v6 else []) ++
          ((if c7 then entryToks (str "StandardErrorPath") v7 else []) ++
            [XTok.txt (str "\n"), XTok.tag (str "/dict"), XTok.txt (str "\n"),
             XTok.tag (str "/plist"), XTok.txt (str "\n")])))) =
      some { acc with
        runAtLoad := b4,
        keepAlive := if b5 then true else acc.keepAlive,
        standardOutPath := if c6 then unescapeXML v6 else acc.standardOutPath,
        standardErrorPath := if c7 then unescapeXML v7 else acc.standardErrorPath } := by
  rw [parseRun, readBoolTag_gen]
  show parseTailKA { acc with runAtLoad := b4 }
    ((if b5 then
        [XTok.txt (str "\n\t"), XTok.tag (str "key"), XTok.txt (str "KeepAlive"),
         XTok.tag (str "/key"), XTok.txt (str "\n\t"), XTok.tag (str "true/")]
      else []) ++
      ((if c6 then entryToks (str "StandardOutPath") v6 else []) ++
        ((if c7 then entryToks (str "StandardErrorPath") v7 else []) ++
          [XTok.txt (str "\n"), XTok.tag (str "/dict"), XTok.txt (str "\n"),
           XTok.tag (str "/plist"), XTok.txt (str "\n")]))) = _
  rw [L_tailKA]

theorem L_envTrue (acc : ParsedPlist) (env : List (String × String)) (b4 b5 : Bool)
    (c6 : Prop) [Decidable c6] (v6 : List Char) (c7 : Prop) [Decidable c7]
    (v7 : List Char) :
    parseEnvEntry acc (str "EnvironmentVariables")
      (XTok.txt (str "\n\t") :: XTok.tag (str "dict")
        :: ((env.flatMap fun kv =>
        envPairToks (escapeXML (str kv.1), escapeXML (str kv.2))) ++
          (XTok.txt (str "\n\t") :: XTok.tag (str "/dict")
            :: (XTok.txt (str "\n\t") :: XTok.tag (str "key") :: XTok.txt (str "RunAtLoad")
      :: XTok.tag (str "/key") :: XTok.txt (str "\n\t")
      :: XTok.tag (if b4 then str "true/" else str "false/")
      :: ((if b5 then
        [XTok.txt (str "\n\t"), XTok.tag (str "key"), XTok.txt (str "KeepAlive"),
         XTok.tag (str "/key"), XTok.txt (str "\n\t"), XTok.tag (str "true/")]
      else []) ++
      ((if c6 then entryToks (str "StandardOutPath") v6 else []) ++
        ((if c7 then entryToks (str "StandardErrorPath") v7 else []) ++
          [XTok.txt (str "\n"), XTok.tag (str "/dict"), XTok.txt (str "\n"),
         XTok.tag (str "/plist"), XTok.txt (str "\n")]))))))) =
      some { acc with
        environment := ((env.map fun kv => (escapeXML (str kv.1), escapeXML (str kv.2))).map
          fun kv => (unescapeXML kv.1, unescapeXML kv.2)),
        runAtLoad := b4,
        keepAlive := if b5 then true else acc.keepAlive,
        standardOutPath := if c6 then unescapeXML v6 else acc.standardOutPath,
        standardErrorPath := if c7 then unescapeXML v7 else acc.standardErrorPath } := by
  rw [parseEnvEntry, if_pos rfl, expectTag_gen]
  dsimp only
  rw [flatMap_comp_map (fun kv => (escapeXML (str kv.1), escapeXML (str kv.2)))
    (fun kv => envPairToks kv) env]
  rw [readEnvPairs_blocks]
  dsimp only
  rw [readEntryKey_gen]
  dsimp only
  rw [if_pos rfl]
  rw [L_run]

theorem L_afterProgram (acc : ParsedPlist) (c2 : Prop) [Decidable c2] (v2 : List Char)
    (c3 : Prop) [Decidable c3] (env : List (String × String)) (b4 b5 : Bool)
    (c6 : Prop) [Decidable c6] (v6 : List Char) (c7 : Prop) [Decidable c7]
    (v7 : List Char) :
    parseAfterProgram acc
      ((if c2 then entryToks (str "WorkingDirectory") v2 else []) ++
        ((if c3 then
        [XTok.txt (str "\n\t"), XTok.tag (str "key"), XTok.txt (str "EnvironmentVariables"),
         XTok.tag (str "/key"), XTok.txt (str "\n\t"), XTok.tag (str "dict")] ++
          ((env.flatMap fun kv =>
            envPairToks (escapeXML (str kv.1), escapeXML (str kv.2))) ++
            [XTok.txt (str "\n\t"), XTok.tag (str "/dict")])
      else []) ++
          ([XTok.txt (str "\n\t"), XTok.tag (str "key"), XTok.txt (str "RunAtLoad"),
         XTok.tag (str "/key"), XTok.txt (str "\n\t"),
         XTok.tag (if b4 then str "true/" else str "false/")] ++
            ((if b5 then
          [XTok.txt (str "\n\t"), XTok.tag (str "key"), XTok.txt (str "KeepAlive"),
           XTok.tag (str "/key"), XTok.txt (str "\n\t"), XTok.tag (str "true/")]
        else []) ++
        ((if c6 then entryToks (str "StandardOutPath") v6 else []) ++
          ((if c7 then entryToks (str "StandardErrorPath") v7 else []) ++
            [XTok.txt (str "\n"), XTok.tag (str "/dict"), XTok.txt (str "\n"),
            XTok.tag (str "/plist"), XTok.txt (str "\n")])))))) =
      some { acc with
        workingDirectory := if c2 then unescapeXML v2 else acc.workingDirectory,
        environment := if c3 then
            ((env.map fun kv => (escapeXML (str kv.1), escapeXML (str kv.2))).map
              fun kv => (unescapeXML kv.1, unescapeXML kv.2))
          else acc.environment,
        runAtLoad := b4,
        keepAlive := if b5 then true else acc.keepAlive,
        standardOutPath := if c6 then unescapeXML v6 else acc.standardOutPath,
        standardErrorPath := if c7 then unescapeXML v7 else acc.standardErrorPath } := by
  by_cases hc2 : c2
  · rw [if_pos hc2, if_pos hc2]
    by_cases hv : v2 = []
    · subst hv
      by_cases hc3 : c3
      · rw [if_pos hc3, if_pos hc3]
        simp only [List.append_assoc]
        show parseEnvEntry {acc with workingDirectory := unescapeXML []}
          (str "EnvironmentVariables")
          (XTok.txt (str "\n\t") :: XTok.tag (str "dict")
        :: ((env.flatMap fun kv =>
            envPairToks (escapeXML (str kv.1), escapeXML (str kv.2))) ++
          (XTok.txt (str "\n\t") :: XTok.tag (str "/dict")
            :: (XTok.txt (str "\n\t") :: XTok.tag (str "key") :: XTok.txt (str "RunAtLoad")
          :: XTok.tag (str "/key") :: XTok.txt (str "\n\t")
          :: XTok.tag (if b4 then str "true/" else str "false/")
          :: ((if b5 then
          [XTok.txt (str "\n\t"), XTok.tag (str "key"), XTok.txt (str "KeepAlive"),
           XTok.tag (str "/key"), XTok.txt (str "\n\t"), XTok.tag (str "true/")]
        else []) ++
        ((if c6 then entryToks (str "StandardOutPath") v6 else []) ++
          ((if c7 then entryToks (str "StandardErrorPath") v7 else []) ++
            [XTok.txt (str "\n"), XTok.tag (str "/dict"), XTok.txt (str "\n"),
            XTok.tag (str "/plist"), XTok.txt (str "\n")]))))))) = _
        rw [L_envTrue]
      · rw [if_neg hc3, if_neg hc3, List.nil_append]
        show parseRun {acc with workingDirectory := unescapeXML []}
          (XTok.txt (str "\n\t")
            :: XTok.tag (if b4 then str "true/" else str "false/")
            :: ((if b5 then
          [XTok.txt (str "\n\t"), XTok.tag (str "key"), XTok.txt (str "KeepAlive"),
           XTok.tag (str "/key"), XTok.txt (str "\n\t"), XTok.tag (str "true/")]
        else []) ++
        ((if c6 then entryToks (str "StandardOutPath") v6 else []) ++
          ((if c7 then entryToks (str "StandardErrorPath") v7 else []) ++
            [XTok.txt (str "\n"), XTok.tag (str "/dict"), XTok.txt (str "\n"),
            XTok.tag (str "/plist"), XTok.txt (str "\n")])))) = _
        rw [L_run]
    · rw [entryToks, strToks_ne v2 hv]
      by_cases hc3 : c3
      · rw [if_pos hc3, if_pos hc3]
        simp only [List.append_assoc]
        show parseEnvEntry {acc with workingDirectory := unescapeXML v2}
          (str "EnvironmentVariables")
          (XTok.txt (str "\n\t") :: XTok.tag (str "dict")
        :: ((env.flatMap fun kv =>
            envPairToks (escapeXML (str kv.1), escapeXML (str kv.2))) ++
          (XTok.txt (str "\n\t") :: XTok.tag (str "/dict")
            :: (XTok.txt (str "\n\t") :: XTok.tag (str "key") :: XTok.txt (str "RunAtLoad")
          :: XTok.tag (str "/key") :: XTok.txt (str "\n\t")
          :: XTok.tag (if b4 then str "true/" else str "false/")
          :: ((if b5 then
          [XTok.txt (str "\n\t"), XTok.tag (str "key"), XTok.txt (str "KeepAlive"),
           XTok.tag (str "/key"), XTok.txt (str "\n\t"), XTok.tag (str "true/")]
        else []) ++
        ((if c6 then entryToks (str "StandardOutPath") v6 else []) ++
          ((if c7 then entryToks (str "StandardErrorPath") v7 else []) ++
            [XTok.txt (str "\n"), XTok.tag (str "/dict"), XTok.txt (str "\n"),
            XTok.tag (str "/plist"), XTok.txt (str "\n")]))))))) = _
        rw [L_envTrue]
      · rw [if_neg hc3, if_neg hc3, List.nil_append]
        show parseRun {acc with workingDirectory := unescapeXML v2}
          (XTok.txt (str "\n\t")
            :: XTok.tag (if b4 then str "true/" else str "false/")
            :: ((if b5 then
          [XTok.txt (str "\n\t"), XTok.tag (str "key"), XTok.txt (str "KeepAlive"),
           XTok.tag (str "/key"), XTok.txt (str "\n\t"), XTok.tag (str "true/")]
        else []) ++
        ((if c6 then entryToks (str "StandardOutPath") v6 else []) ++
          ((if c7 then entryToks (str "StandardErrorPath") v7 else []) ++
            [XTok.txt (str "\n"), XTok.tag (str "/dict"), XTok.txt (str "\n"),
            XTok.tag (str "/plist"), XTok.txt (str "\n")])))) = _
        rw [L_run]
  · rw [if_neg hc2, if_neg hc2, List.nil_append]
    by_cases hc3 : c3
    · rw [if_pos hc3, if_pos hc3]
      simp only [List.append_assoc]
      show parseEnvEntry acc (str "EnvironmentVariables")
        (XTok.txt (str "\n\t") :: XTok.tag (str "dict")
        :: ((env.flatMap fun kv =>
            envPairToks (escapeXML (str kv.1), escapeXML (str kv.2))) ++
          (XTok.txt (str "\n\t") :: XTok.tag (str "/dict")
            :: (XTok.txt (str "\n\t") :: XTok.tag (str "key") :: XTok.txt (str "RunAtLoad")
          :: XTok.tag (str "/key") :: XTok.txt (str "\n\t")
          :: XTok.tag (if b4 then str "true/" else str "false/")
          :: ((if b5 then
          [XTok.txt (str "\n\t"), XTok.tag (str "key"), XTok.txt (str "KeepAlive"),
           XTok.tag (str "/key"), XTok.txt (str "\n\t"), XTok.tag (str "true/")]
        else []) ++
        ((if c6 then entryToks (str "StandardOutPath") v6 else []) ++
          ((if c7 then entryToks (str "StandardErrorPath") v7 else []) ++
            [XTok.txt (str "\n"), XTok.tag (str "/dict"), XTok.txt (str "\n"),
            XTok.tag (str "/plist"), XTok.txt (str "\n")]))))))) = _
      rw [L_envTrue]
    · rw [if_neg hc3, if_neg hc3, List.nil_append]
      show parseRun acc
        (XTok.txt (str "\n\t")
          :: XTok.tag (if b4 then str "true/" else str "false/")
          :: ((if b5 then
          [XTok.txt (str "\n\t"), XTok.tag (str "key"), XTok.txt (str "KeepAlive"),
           XTok.tag (str "/key"), XTok.txt (str "\n\t"), XTok.tag (str "true/")]
        else []) ++
        ((if c6 then entryToks (str "StandardOutPath") v6 else []) ++
          ((if c7 then entryToks (str "StandardErrorPath") v7 else []) ++
            [XTok.txt (str "\n"), XTok.tag (str "/dict"), XTok.txt (str "\n"),
            XTok.tag (str "/plist"), XTok.txt (str "\n")])))) = _
      rw [L_run]

theorem argBlocks_cons (p : List Char) (vs : List (List Char)) (R : List XTok) :
    ((p :: vs).flatMap fun v => argToks v) ++
      (XTok.txt (str "\n\t") :: XTok.tag (str "/array") :: R) =
      XTok.txt (str "\n\t\t") :: (strToks p ++ ((vs.flatMap fun v => argToks v) ++
        (XTok.txt (str "\n\t") :: XTok.tag (str "/array") :: R))) := by
  simp only [List.flatMap_cons, argToks, List.cons_append, List.append_assoc]

theorem L_body (v1 : List Char) (c1 : Prop) [Decidable c1] (p : List Char)
    (args : List String) (c2 : Prop) [Decidable c2] (v2 : List Char)
    (c3 : Prop) [Decidable c3] (env : List (String × String)) (b4 b5 : Bool)
    (c6 : Prop) [Decidable c6] (v6 : List Char) (c7 : Prop) [Decidable c7]
    (v7 : List Char) :
    parseBody (entryToks (str "Label") v1 ++
      ((if c1 then
          [XTok.txt (str "\n\t"), XTok.tag (str "key"), XTok.txt (str "ProgramArguments"),
           XTok.tag (str "/key"), XTok.txt (str "\n\t"), XTok.tag (str "array"),
           XTok.txt (str "\n\t\t")] ++
            (strToks p ++
              ((args.flatMap fun a => argToks (escapeXML (str a))) ++
                [XTok.txt (str "\n\t"), XTok.tag (str "/array")]))
        else entryToks (str "Program") p) ++
        ((if c2 then entryToks (str "WorkingDirectory") v2 else []) ++
        ((if c3 then
            [XTok.txt (str "\n\t"), XTok.tag (str "key"),
             XTok.txt (str "EnvironmentVariables"),
             XTok.tag (str "/key"), XTok.txt (str "\n\t"), XTok.tag (str "dict")] ++
              ((env.flatMap fun kv =>
                envPairToks (escapeXML (str kv.1), escapeXML (str kv.2))) ++
                [XTok.txt (str "\n\t"), XTok.tag (str "/dict")])
          else []) ++
          ([XTok.txt (str "\n\t"), XTok.tag (str "key"), XTok.txt (str "RunAtLoad"),
            XTok.tag (str "/key"), XTok.txt (str "\n\t"),
            XTok.tag (if b4 then str "true/" else str "false/")] ++
            ((if b5 then
                [XTok.txt (str "\n\t"), XTok.tag (str "key"), XTok.txt (str "KeepAlive"),
                 XTok.tag (str "/key"), XTok.txt (str "\n\t"), XTok.tag (str "true/")]
              else []) ++
              ((if c6 then entryToks (str "StandardOutPath") v6 else []) ++
                ((if c7 then entryToks (str "StandardErrorPath") v7 else []) ++
                  [XTok.txt (str "\n"), XTok.tag (str "/dict"), XTok.txt (str "\n"),
              XTok.tag (str "/plist"), XTok.txt (str "\n")])))))))) =
      some { label := unescapeXML v1, program := unescapeXML p,
             arguments := if c1 then
                 ((args.map fun a => escapeXML (str a)).map unescapeXML)
               else [],
             workingDirectory := if c2 then unescapeXML v2 else [],
             environment := if c3 then
                 ((env.map fun kv => (escapeXML (str kv.1), escapeXML (str kv.2))).map
                   fun kv => (unescapeXML kv.1, unescapeXML kv.2))
               else [],
             runAtLoad := b4,
             keepAlive := if b5 then true else false,
             standardOutPath := if c6 then unescapeXML v6 else [],
             standardErrorPath := if c7 then unescapeXML v7 else [] } := by
  rw [entryToks]
  simp only [List.cons_append, List.nil_append, List.append_assoc]
  rw [parseBody, readEntryKey_gen]
  dsimp only
  rw [if_pos rfl, readStr_strToks]
  dsimp only
  by_cases hc1 : c1
  · rw [if_pos hc1, if_pos hc1]
    simp only [List.cons_append, List.nil_append, List.append_assoc]
    rw [readEntryKey_gen]
    dsimp only
    rw [if_pos rfl, expectTag_gen]
    dsimp only
    rw [flatMap_comp_map (fun a => escapeXML (str a)) (fun v => argToks v) args]
    rw [← argBlocks_cons]
    rw [readStrings_blocks]
    dsimp only
    exact L_afterProgram _ c2 v2 c3 env b4 b5 c6 v6 c7 v7
  · rw [if_neg hc1, if_neg hc1]
    rw [entryToks]
    simp only [List.cons_append, List.nil_append, List.append_assoc]
    rw [readEntryKey_gen]
    dsimp only
    rw [if_neg (by decide), if_pos rfl, readStr_strToks]
    dsimp only
    exact L_afterProgram _ c2 v2 c3 env b4 b5 c6 v6 c7 v7

theorem args_roundtrip (l : List String) :
    (l.map fun a => escapeXML (str a)).map unescapeXML = l.map str := by
  induction l with
  | nil => rfl
  | cons a t ih => simp only [List.map_cons, unescape_escape, ih]

theorem env_roundtrip (l : List (String × String)) :
    ((l.map fun kv => (escapeXML (str kv.1), escapeXML (str kv.2))).map
      fun kv => (unescapeXML kv.1, unescapeXML kv.2)) =
      l.map fun kv => (str kv.1, str kv.2) := by
  induction l with
  | nil => rfl
  | cons a t ih => simp only [List.map_cons, unescape_escape, ih]

theorem opt_str_field (s : String) : (if s ≠ "" then str s else []) = str s := by
  by_cases h : s = ""
  · rw [if_neg (by simp [h])]
    subst h
    rfl
  · rw [if_pos h]

theorem opt_args_field (l : List String) :
    (if 0 < l.length then l.map str else []) = l.map str := by
  cases l <;> simp

theorem opt_env_field {α β : Type} [DecidableEq α] (f : α → β) (l : List α) :
    (if l ≠ [] then l.map f else []) = l.map f := by
  cases l <;> simp

theorem bool_if_id (b : Bool) : (if b then true else false) = b := by
  cases b <;> rfl

theorem record_clean (cfg : ServiceConfig) :
    (some { label := unescapeXML (escapeXML (str cfg.name)),
            program := unescapeXML (escapeXML (str cfg.program)),
            arguments := if 0 < cfg.arguments.length then
                ((cfg.arguments.map fun a => escapeXML (str a)).map unescapeXML)
              else [],
            workingDirectory := if cfg.workingDirectory ≠ "" then
                unescapeXML (escapeXML (str cfg.workingDirectory))
              else [],
            environment := if cfg.environment ≠ [] then
                ((cfg.environment.map fun kv =>
                  (escapeXML (str kv.1), escapeXML (str kv.2))).map
                    fun kv => (unescapeXML kv.1, unescapeXML kv.2))
              else [],
            runAtLoad := cfg.runAtLoad,
            keepAlive := if cfg.keepAlive then true else false,
            standardOutPath := if cfg.standardOutPath ≠ "" then
                unescapeXML (escapeXML (str cfg.standardOutPath))
              else [],
            standardErrorPath := if cfg.standardErrorPath ≠ "" then
                unescapeXML (escapeXML (str cfg.standardErrorPath))
              else [] } : Option ParsedPlist) = some (mkParsed cfg) := by
  simp only [unescape_escape, args_roundtrip, env_roundtrip, opt_str_field,
    opt_args_field, opt_env_field, bool_if_id, mkParsed]

theorem parsePlist_generatePlist (cfg : ServiceConfig) :
    parsePlist (generatePlist cfg) = some (mkParsed cfg) := by
  rw [parsePlist, tokenize_generatePlist]
  unfold plistToks
  simp only [List.append_assoc, List.cons_append, List.nil_append]
  rw [parsePlistToks.eq_def]
  dsimp only
  rw [if_pos rfl]
  exact (L_body (escapeXML (str cfg.name)) (0 < cfg.arguments.length)
    (escapeXML (str cfg.program)) cfg.arguments (cfg.workingDirectory ≠ "")
    (escapeXML (str cfg.workingDirectory)) (cfg.environment ≠ []) cfg.environment
    cfg.runAtLoad cfg.keepAlive (cfg.standardOutPath ≠ "")
    (escapeXML (str cfg.standardOutPath)) (cfg.standardErrorPath ≠ "")
    (escapeXML (str cfg.standardErrorPath))).trans (record_clean cfg)

/-! ### Unit-file line structure -/

theorem splitOnChar_ne_nil (c : Char) (l : List Char) : splitOnChar c l ≠ [] := by
  induction l with
  | nil => simp [splitOnChar]
  | cons x xs ih =>
    rw [splitOnChar]
    rcases hs : splitOnChar c xs with _ | ⟨h, t⟩
    · exact absurd hs ih
    · by_cases hx : x = c <;> simp [hx]

theorem splitOnChar_line (c : Char) (a b : List Char) (h : c ∉ a) :
    splitOnChar c (a ++ c :: b) = a :: splitOnChar c b := by
  induction a with
  | nil =>
    rw [List.nil_append, splitOnChar]
    rcases hs : splitOnChar c b with _ | ⟨h1, t⟩
    · exact absurd hs (splitOnChar_ne_nil c b)
    · dsimp only
      rw [if_pos rfl]
  | cons x xs ih =>
    have hx : x ≠ c := fun he => h (by simp [he])
    rw [List.cons_append, splitOnChar, ih (fun hm => h (by simp [hm]))]
    dsimp only
    rw [if_neg hx]

theorem splitOnChar_flat_lines (c : Char) (L : List (List Char))
    (hL : ∀ l ∈ L, c ∉ l) :
    splitOnChar c (L.flatMap fun l => l ++ [c]) = L ++ [[]] := by
  induction L with
  | nil => rfl
  | cons l t ih =>
    rw [List.flatMap_cons, List.append_assoc, List.singleton_append,
      splitOnChar_line c l _ (hL l (by simp)),
      ih (fun x hx => hL x (by simp [hx]))]
    rfl

theorem ite_append_push {c : Prop} [Decidable c] (A B D : List Char) :
    (if c then A else B) ++ D = if c then A ++ D else B ++ D :=
  (apply_ite (fun L => L ++ D) c A B)

theorem doc_as_lines (cfg : ServiceConfig) :
    generateUnitFile cfg = (unitLines cfg).flatMap (fun l => l ++ ['\n']) := by
  unfold generateUnitFile unitLines
  simp only [List.flatMap_append, List.flatMap_cons, List.flatMap_nil,
    apply_ite (fun L : List (List Char) => L.flatMap fun l => l ++ ['\n'])]
  rw [← flatMap_comp_map
    (fun kv : String × String =>
      str "Environment=\"" ++ (str kv.1 ++ (str "=" ++ (str kv.2 ++ str "\""))))
    (fun l => l ++ ['\n']) cfg.environment]
  simp only [ite_append_push, List.append_assoc, List.cons_append,
    List.append_nil, List.nil_append]
  rfl

/-! ### Recovering the ExecStart line -/

theorem findSome_none_step {α β : Type} (f : α → Option β) (a : α) (l : List α)
    (h : f a = none) : (a :: l).findSome? f = l.findSome? f := by
  rw [List.findSome?_cons, h]

theorem findSome_some_step {α β : Type} (f : α → Option β) (a : α) (l : List α)
    (b : β) (h : f a = some b) : (a :: l).findSome? f = some b := by
  rw [List.findSome?_cons, h]

theorem findSome_exec (cfg : ServiceConfig) :
    (unitLines cfg ++ [[]]).findSome? execLineMatch = some (execStartLine cfg) := by
  rw [unitLines]
  simp only [List.cons_append, List.nil_append]
  rw [findSome_none_step _ _ _ rfl]
  rw [findSome_none_step _ _ _ (by split <;> rfl)]
  rw [findSome_none_step _ _ _ rfl]
  rw [findSome_none_step _ _ _ rfl]
  rw [findSome_none_step _ _ _ rfl]
  rw [findSome_none_step _ _ _ rfl]
  have hpre : (str "ExecStart=").isPrefixOf (str "ExecStart=" ++ execStartLine cfg) = true :=
    List.isPrefixOf_iff_prefix.2 (List.prefix_append _ _)
  have hx : execLineMatch (str "ExecStart=" ++ execStartLine cfg) =
      some (execStartLine cfg) := by
    rw [execLineMatch, if_pos hpre, List.drop_left]
  exact findSome_some_step _ _ _ _ hx

theorem flatMap_space (t : List String) :
    (t.flatMap fun arg =>
      if ' ' ∈ str arg then str " \"" ++ str arg ++ str "\"" else str " " ++ str arg) = [] ∧
        t = [] ∨
    ∃ X, (t.flatMap fun arg =>
      if ' ' ∈ str arg then str " \"" ++ str arg ++ str "\"" else str " " ++ str arg) =
        ' ' :: X := by
  cases t with
  | nil => exact Or.inl ⟨rfl, rfl⟩
  | cons b u =>
    right
    rw [List.flatMap_cons]
    by_cases hb : ' ' ∈ str b
    · rw [if_pos hb]
      exact ⟨_, rfl⟩
    · rw [if_neg hb]
      exact ⟨_, rfl⟩

theorem exec_takeWhile (cfg : ServiceConfig) (H4 : ' ' ∉ str cfg.program) :
    (execStartLine cfg).takeWhile (fun ch => decide (ch ≠ ' ')) = str cfg.program ∧
    (execStartLine cfg).dropWhile (fun ch => decide (ch ≠ ' ')) =
      cfg.arguments.flatMap (fun arg =>
        if ' ' ∈ str arg then str " \"" ++ str arg ++ str "\"" else str " " ++ str arg) := by
  have hl : ∀ c ∈ str cfg.program, (fun ch => decide (ch ≠ ' ')) c = true := by
    intro c hc
    simp only [ne_eq, decide_eq_true_eq]
    intro he
    exact H4 (he ▸ hc)
  rw [execStartLine]
  rcases flatMap_space cfg.arguments with ⟨hnil, _⟩ | ⟨X, hX⟩
  · rw [hnil, List.append_nil]
    have h := takeWhile_all (fun ch => decide (ch ≠ ' ')) (str cfg.program) hl
    exact ⟨h.1, h.2⟩
  · rw [hX]
    have h := takeWhile_append_stop (fun ch => decide (ch ≠ ' ')) (str cfg.program)
      ' ' X hl (by simp)
    exact ⟨h.1, h.2⟩

theorem parseExecArgs_flat (args : List String) (H5 : ∀ a ∈ args, '"' ∉ str a) :
    parseExecArgs (args.flatMap fun arg =>
      if ' ' ∈ str arg then str " \"" ++ str arg ++ str "\"" else str " " ++ str arg) =
      args.map str := by
  induction args with
  | nil => rw [List.flatMap_nil, List.map_nil, parseExecArgs.eq_1]
  | cons a t ih =>
    have iht := ih (fun x hx => H5 x (by simp [hx]))
    have hqa : '"' ∉ str a := H5 a (by simp)
    rw [List.flatMap_cons, List.map_cons]
    by_cases hsp : ' ' ∈ str a
    · rw [if_pos hsp]
      simp only [List.append_assoc]
      show parseExecArgs (' ' :: '"' :: (str a ++ ('"' :: (t.flatMap fun arg =>
        if ' ' ∈ str arg then str " \"" ++ str arg ++ str "\""
        else str " " ++ str arg)))) = str a :: t.map str
      rw [parseExecArgs.eq_2, if_pos rfl]
      simp only [List.head?_cons, if_true]
      simp only [List.tail_cons]
      have h := takeWhile_append_stop (fun ch => decide (ch ≠ '"')) (str a) '"'
        (t.flatMap fun arg =>
          if ' ' ∈ str arg then str " \"" ++ str arg ++ str "\""
          else str " " ++ str arg)
        (fun c hc => by simp only [ne_eq, decide_eq_true_eq]; exact fun he => hqa (he ▸ hc))
        (by simp)
      rw [h.1, h.2]
      simp only [List.drop_succ_cons, List.drop_zero]
      rw [iht]
    · rw [if_neg hsp]
      rcases flatMap_space t with ⟨hnil, hteq⟩ | ⟨X, hX⟩
      · rw [hnil, hteq]
        rcases hashape : str a with _ | ⟨c0, a0⟩
        · show parseExecArgs (' ' :: ([] ++ [])) = [] :: List.map str []
          rw [parseExecArgs.eq_2, if_pos rfl, if_neg (by simp)]
          simp [parseExecArgs.eq_1]
        · have hc0 : c0 ≠ '"' := fun he => hqa (by rw [hashape, he]; simp)
          show parseExecArgs (' ' :: ((c0 :: a0) ++ [])) = (c0 :: a0) :: List.map str []
          rw [parseExecArgs.eq_2, if_pos rfl, if_neg (by simp [hc0])]
          have hall : ∀ c ∈ (c0 :: a0) ++ ([] : List Char),
              (fun ch => decide (ch ≠ ' ')) c = true := by
            intro c hc
            simp only [ne_eq, decide_eq_true_eq]
            intro he
            exact hsp (by rw [hashape]; simpa [he] using hc)
          have h := takeWhile_all (fun ch => decide (ch ≠ ' ')) ((c0 :: a0) ++ []) hall
          rw [h.1, h.2]
          simp [parseExecArgs.eq_1]
      · rw [hX]
        rcases hashape : str a with _ | ⟨c0, a0⟩
        · show parseExecArgs (' ' :: ([] ++ ' ' :: X)) = [] :: t.map str
          rw [parseExecArgs.eq_2, if_pos rfl, if_neg (by simp)]
          rw [List.nil_append, List.takeWhile_cons_of_neg (by simp),
            List.dropWhile_cons_of_neg (by simp)]
          rw [← hX, iht]
        · have hc0 : c0 ≠ '"' := fun he => hqa (by rw [hashape, he]; simp)
          show parseExecArgs (' ' :: ((c0 :: a0) ++ ' ' :: X)) = (c0 :: a0) :: t.map str
          rw [parseExecArgs.eq_2, if_pos rfl, if_neg (by simp [hc0])]
          have hall : ∀ c ∈ (c0 :: a0), (fun ch => decide (ch ≠ ' ')) c = true := by
            intro c hc
            simp only [ne_eq, decide_eq_true_eq]
            intro he
            exact hsp (by rw [hashape]; exact he ▸ hc)
          have h := takeWhile_append_stop (fun ch => decide (ch ≠ ' ')) (c0 :: a0) ' ' X
            hall (by simp)
          rw [h.1, h.2]
          rw [← hX, iht]

/-! ### Recovering the Environment lines and the restart policy -/

theorem parseEnvLine_env (K V : List Char) (hK : '=' ∉ K) :
    parseEnvLine (str "Environment=\"" ++ (K ++ (str "=" ++ (V ++ str "\"")))) =
      some (K, V) := by
  have he2 : K ++ (str "=" ++ (V ++ str "\"")) = (K ++ ('=' :: V)) ++ ['"'] := by
    simp only [List.append_assoc, List.cons_append]
    rfl
  have hpre : (str "Environment=\"").isPrefixOf
      (str "Environment=\"" ++ (K ++ (str "=" ++ (V ++ str "\"")))) = true :=
    List.isPrefixOf_iff_prefix.2 (List.prefix_append _ _)
  have hlast : (str "Environment=\"" ++ (K ++ (str "=" ++ (V ++ str "\"")))).getLast? =
      some '"' := by
    rw [he2, ← List.append_assoc]
    exact List.getLast?_concat _
  rw [parseEnvLine, if_pos ⟨hpre, hlast⟩]
  dsimp only
  rw [List.drop_left, he2, List.dropLast_concat]
  have h := takeWhile_append_stop (fun ch => decide (ch ≠ '=')) K '=' V
    (fun c hc => by
      simp only [ne_eq, decide_eq_true_eq]
      exact fun heq => hK (heq ▸ hc))
    (by simp)
  rw [h.1, h.2]
  simp only [List.drop_succ_cons, List.drop_zero]

theorem fm_cons_none (a : List Char) (l : List (List Char))
    (h : parseEnvLine a = none) :
    (a :: l).filterMap parseEnvLine = l.filterMap parseEnvLine := by
  simp [List.filterMap_cons, h]

theorem fm_ite_nil {c : Prop} [Decidable c] {A : List (List Char)}
    (h : A.filterMap parseEnvLine = []) :
    (if c then A else []).filterMap parseEnvLine = [] := by
  split
  · exact h
  · rfl

theorem fm_env_block (env : List (String × String))
    (h7 : ∀ kv ∈ env, '=' ∉ str kv.1) :
    (env.map fun kv =>
      str "Environment=\"" ++ (str kv.1 ++ (str "=" ++ (str kv.2 ++ str "\"")))).filterMap
        parseEnvLine = env.map fun kv => (str kv.1, str kv.2) := by
  induction env with
  | nil => rfl
  | cons kv t ih =>
    simp only [List.map_cons, List.filterMap_cons,
      parseEnvLine_env _ _ (h7 kv (by simp)), ih (fun x hx => h7 x (by simp [hx]))]

theorem fm_unitLines (cfg : ServiceConfig)
    (h7 : ∀ kv ∈ cfg.environment, '=' ∉ str kv.1) :
    (unitLines cfg ++ [[]]).filterMap parseEnvLine =
      cfg.environment.map fun kv => (str kv.1, str kv.2) := by
  rw [unitLines]
  simp only [List.append_assoc, List.cons_append, List.nil_append]
  rw [fm_cons_none _ _ (by rfl)]
  rw [fm_cons_none _ _ (by split <;> rfl)]
  rw [fm_cons_none _ _ (by rfl)]
  rw [fm_cons_none _ _ (by rfl)]
  rw [fm_cons_none _ _ (by rfl)]
  rw [fm_cons_none _ _ (by rfl)]
  rw [fm_cons_none _ _ (by rfl)]
  rw [List.filterMap_append, fm_ite_nil (by rw [fm_cons_none _ _ (by rfl)]; rfl)]
  rw [List.filterMap_append, fm_env_block cfg.environment h7]
  rw [List.filterMap_append,
    fm_ite_nil (by rw [fm_cons_none _ _ (by rfl), fm_cons_none _ _ (by rfl)]; rfl)]
  rw [List.filterMap_append, fm_ite_nil (by rw [fm_cons_none _ _ (by rfl)]; rfl)]
  rw [List.filterMap_append, fm_ite_nil (by rw [fm_cons_none _ _ (by rfl)]; rfl)]
  rw [show List.filterMap parseEnvLine
    ([] :: str "[Install]" :: str "WantedBy=default.target" :: [[]]) = [] from rfl]
  simp

theorem any_cons_false {p : List Char → Bool} {a : List Char} {l : List (List Char)}
    (h : p a = false) : (a :: l).any p = l.any p := by
  simp [List.any_cons, h]

theorem any_ite_false {c : Prop} [Decidable c] {A : List (List Char)}
    {p : List Char → Bool} (h : A.any p = false) :
    (if c then A else []).any p = false := by
  split
  · exact h
  · rfl

theorem any_env_block (env : List (String × String)) :
    (env.map fun kv =>
      str "Environment=\"" ++ (str kv.1 ++ (str "=" ++ (str kv.2 ++ str "\"")))).any
        (fun l => l = str "Restart=always") = false := by
  induction env with
  | nil => rfl
  | cons kv t ih =>
    rw [List.map_cons, any_cons_false (by rfl), ih]

theorem any_unitLines (cfg : ServiceConfig) :
    (unitLines cfg ++ [[]]).any (fun l => l = str "Restart=always") = cfg.keepAlive := by
  rw [unitLines]
  simp only [List.append_assoc, List.cons_append, List.nil_append]
  rw [any_cons_false (by rfl)]
  rw [any_cons_false (by split <;> rfl)]
  rw [any_cons_false (by rfl)]
  rw [any_cons_false (by rfl)]
  rw [any_cons_false (by rfl)]
  rw [any_cons_false (by rfl)]
  rw [any_cons_false (by rfl)]
  rw [List.any_append, any_ite_false (by rw [any_cons_false (by rfl)]; rfl)]
  rw [List.any_append, any_env_block]
  rw [List.any_append]
  have hka : (if cfg.keepAlive then [str "Restart=always", str "RestartSec=5"]
      else []).any (fun l => l = str "Restart=always") = cfg.keepAlive := by
    cases cfg.keepAlive <;> rfl
  rw [hka]
  rw [List.any_append, any_ite_false (by rw [any_cons_false (by rfl)]; rfl)]
  rw [List.any_append, any_ite_false (by rw [any_cons_false (by rfl)]; rfl)]
  rw [show (([] :: str "[Install]" :: str "WantedBy=default.target" :: [[]]).any
    (fun l => l = str "Restart=always")) = false from rfl]
  simp

theorem execStartLine_no_nl (cfg : ServiceConfig) (H3 : '\n' ∉ str cfg.program)
    (H5 : ∀ a ∈ cfg.arguments, '\n' ∉ str a) : '\n' ∉ execStartLine cfg := by
  intro hm
  rcases List.mem_append.1 hm with h | h
  · exact H3 h
  · rcases List.mem_flatMap.1 h with ⟨a, ha, hmem⟩
    by_cases hs : ' ' ∈ str a
    · rw [if_pos hs] at hmem
      rcases List.mem_append.1 hmem with h2 | h2
      · rcases List.mem_append.1 h2 with h3 | h3
        · exact absurd h3 (by decide)
        · exact H5 a ha h3
      · exact absurd h2 (by decide)
    · rw [if_neg hs] at hmem
      rcases List.mem_append.1 hmem with h2 | h2
      · exact absurd h2 (by decide)
      · exact H5 a ha h2

theorem unitLines_no_nl (cfg : ServiceConfig)
    (H1 : '\n' ∉ str cfg.description) (H2 : '\n' ∉ str cfg.name)
    (HE : '\n' ∉ execStartLine cfg)
    (H6 : '\n' ∉ str cfg.workingDirectory)
    (H7 : ∀ kv ∈ cfg.environment, '\n' ∉ str kv.1 ∧ '\n' ∉ str kv.2)
    (H8 : '\n' ∉ str cfg.standardOutPath) (H9 : '\n' ∉ str cfg.standardErrorPath) :
    ∀ l ∈ unitLines cfg, '\n' ∉ l := by
  intro l hl hmem
  rw [unitLines] at hl
  rcases List.mem_append.1 hl with h | h
  · simp only [List.mem_cons, List.not_mem_nil, or_false] at h
    rcases h with h|h|h|h|h|h|h <;> subst h
    · exact absurd hmem (by decide)
    · by_cases hd : cfg.description ≠ ""
      · rw [if_pos hd] at hmem
        rcases List.mem_append.1 hmem with h2 | h2
        · exact absurd h2 (by decide)
        · exact H1 h2
      · rw [if_neg hd] at hmem
        rcases List.mem_append.1 hmem with h2 | h2
        · exact absurd h2 (by decide)
        · rcases List.mem_append.1 h2 with h3 | h3
          · exact H2 h3
          · exact absurd h3 (by decide)
    · exact absurd hmem (by decide)
    · exact absurd hmem (by simp)
    · exact absurd hmem (by decide)
    · exact absurd hmem (by decide)
    · rcases List.mem_append.1 hmem with h2 | h2
      · exact absurd h2 (by decide)
      · exact HE h2
  · rcases List.mem_append.1 h with h | h
    · by_cases hw : cfg.workingDirectory ≠ ""
      · rw [if_pos hw] at h
        simp only [List.mem_singleton] at h
        subst h
        rcases List.mem_append.1 hmem with h2 | h2
        · exact absurd h2 (by decide)
        · exact H6 h2
      · rw [if_neg hw] at h
        exact absurd h (by simp)
    · rcases List.mem_append.1 h with h | h
      · rcases List.mem_map.1 h with ⟨kv, hkv, rfl⟩
        rcases List.mem_append.1 hmem with h2 | h2
        · exact absurd h2 (by decide)
        · rcases List.mem_append.1 h2 with h3 | h3
          · exact (H7 kv hkv).1 h3
          · rcases List.mem_append.1 h3 with h4 | h4
            · exact absurd h4 (by decide)
            · rcases List.mem_append.1 h4 with h5 | h5
              · exact (H7 kv hkv).2 h5
              · exact absurd h5 (by decide)
      · rcases List.mem_append.1 h with h | h
        · by_cases hk : cfg.keepAlive = true
          · rw [if_pos hk] at h
            simp only [List.mem_cons, List.not_mem_nil, or_false] at h
            rcases h with h|h <;> subst h <;> exact absurd hmem (by decide)
          · rw [if_neg hk] at h
            exact absurd h (by simp)
        · rcases List.mem_append.1 h with h | h
          · by_cases ho : cfg.standardOutPath ≠ ""
            · rw [if_pos ho] at h
              simp only [List.mem_singleton] at h
              subst h
              rcases List.mem_append.1 hmem with h2 | h2
              · exact absurd h2 (by decide)
              · exact H8 h2
            · rw [if_neg ho] at h
              exact absurd h (by simp)
          · rcases List.mem_append.1 h with h | h
            · by_cases he : cfg.standardErrorPath ≠ ""
              · rw [if_pos he] at h
                simp only [List.mem_singleton] at h
                subst h
                rcases List.mem_append.1 hmem with h2 | h2
                · exact absurd h2 (by decide)
                · exact H9 h2
              · rw [if_neg he] at h
                exact absurd h (by simp)
            · simp only [List.mem_cons, List.not_mem_nil, or_false] at h
              rcases h with h|h|h <;> subst h
              · exact absurd hmem (by simp)
              · exact absurd hmem (by decide)
              · exact absurd hmem (by decide)

theorem lines_of_doc (cfg : ServiceConfig)
    (H1 : '\n' ∉ str cfg.description) (H2 : '\n' ∉ str cfg.name)
    (HE : '\n' ∉ execStartLine cfg)
    (H6 : '\n' ∉ str cfg.workingDirectory)
    (H7 : ∀ kv ∈ cfg.environment, '\n' ∉ str kv.1 ∧ '\n' ∉ str kv.2)
    (H8 : '\n' ∉ str cfg.standardOutPath) (H9 : '\n' ∉ str cfg.standardErrorPath) :
    splitOnChar '\n' (generateUnitFile cfg) = unitLines cfg ++ [[]] := by
  rw [doc_as_lines]
  exact splitOnChar_flat_lines '\n' _
    (unitLines_no_nl cfg H1 H2 HE H6 H7 H8 H9)

theorem parseUnit_generateUnit (cfg : ServiceConfig)
    (H1 : '\n' ∉ str cfg.description) (H2 : '\n' ∉ str cfg.name)
    (H3 : '\n' ∉ str cfg.program) (H4 : ' ' ∉ str cfg.program)
    (H5 : ∀ a ∈ cfg.arguments, '\n' ∉ str a ∧ '"' ∉ str a)
    (H6 : '\n' ∉ str cfg.workingDirectory)
    (H7 : ∀ kv ∈ cfg.environment, ('\n' ∉ str kv.1 ∧ '\n' ∉ str kv.2) ∧ '=' ∉ str kv.1)
    (H8 : '\n' ∉ str cfg.standardOutPath) (H9 : '\n' ∉ str cfg.standardErrorPath) :
    parseUnitFile (generateUnitFile cfg) = mkParsedUnit cfg := by
  simp only [parseUnitFile]
  rw [lines_of_doc cfg H1 H2
    (execStartLine_no_nl cfg H3 (fun a ha => (H5 a ha).1)) H6
    (fun kv hkv => (H7 kv hkv).1) H8 H9]
  rw [findSome_exec]
  dsimp only
  rw [(exec_takeWhile cfg H4).1, (exec_takeWhile cfg H4).2]
  rw [parseExecArgs_flat cfg.arguments (fun a ha => (H5 a ha).2)]
  rw [fm_unitLines cfg (fun kv hkv => (H7 kv hkv).2), any_unitLines]
  rfl

/-! ### Claim C4 -/

/-- **C4, counterexample.** Two configurations that differ only in
`runAtLoad` produce byte-identical systemd unit files, so no re-parsing of
`generateUnitFile` output can recover `runAtLoad`. -/
theorem claim_C4_counterexample :
    generateUnitFile { name := "svc", program := "/bin/app", runAtLoad := true } =
      generateUnitFile { name := "svc", program := "/bin/app", runAtLoad := false } ∧
    ({ name := "svc", program := "/bin/app", runAtLoad := true }
      : ServiceConfig).runAtLoad = true ∧
    ({ name := "svc", program := "/bin/app", runAtLoad := false }
      : ServiceConfig).runAtLoad = false :=
  ⟨rfl, rfl, rfl⟩

/-- **C4** (corrected). The round-trip holds in full for the launchd plist:
re-parsing `generatePlist cfg` recovers label, program, arguments,
environment, runAtLoad and keepAlive for every `ServiceConfig`.  For the
systemd unit file, `runAtLoad` is not serialized at all (see the
counterexample), and the remaining claimed fields — program, arguments,
environment and keepAlive — are recovered exactly provided the
serialized strings contain no newline, the program contains no space,
arguments contain no double quote, and environment keys contain no
equals sign. -/
theorem claim_C4_roundtrip_amended :
    (∀ cfg : ServiceConfig, parsePlist (generatePlist cfg) = some (mkParsed cfg)) ∧
    (∀ cfg : ServiceConfig,
      '\n' ∉ str cfg.description → '\n' ∉ str cfg.name →
      '\n' ∉ str cfg.program → ' ' ∉ str cfg.program →
      (∀ a ∈ cfg.arguments, '\n' ∉ str a ∧ '\"' ∉ str a) →
      '\n' ∉ str cfg.workingDirectory →
      (∀ kv ∈ cfg.environment,
        ('\n' ∉ str kv.1 ∧ '\n' ∉ str kv.2) ∧ '=' ∉ str kv.1) →
      '\n' ∉ str cfg.standardOutPath → '\n' ∉ str cfg.standardErrorPath →
      parseUnitFile (generateUnitFile cfg) = mkParsedUnit cfg) :=
  ⟨parsePlist_generatePlist, fun cfg h1 h2 h3 h4 h5 h6 h7 h8 h9 =>
    parseUnit_generateUnit cfg h1 h2 h3 h4 h5 h6 h7 h8 h9⟩

/-- **C4, witness.** The amended round-trip at a concrete configuration
exercising every optional field. -/
theorem claim_C4_witness :
    parsePlist (generatePlist { name := "svc", description := "demo", program := "/bin/app", arguments := ["run", "two words"], workingDirectory := "/tmp", environment := [("K", "V"), ("K2", "V=2")], runAtLoad := true, keepAlive := true, standardOutPath := "/log/o", standardErrorPath := "/log/e" }) = some (mkParsed { name := "svc", description := "demo", program := "/bin/app", arguments := ["run", "two words"], workingDirectory := "/tmp", environment := [("K", "V"), ("K2", "V=2")], runAtLoad := true, keepAlive := true, standardOutPath := "/log/o", standardErrorPath := "/log/e" }) ∧
    parseUnitFile (generateUnitFile { name := "svc", description := "demo", program := "/bin/app", arguments := ["run", "two words"], workingDirectory := "/tmp", environment := [("K", "V"), ("K2", "V=2")], runAtLoad := true, keepAlive := true, standardOutPath := "/log/o", standardErrorPath := "/log/e" }) = mkParsedUnit { name := "svc", description := "demo", program := "/bin/app", arguments := ["run", "two words"], workingDirectory := "/tmp", environment := [("K", "V"), ("K2", "V=2")], runAtLoad := true, keepAlive := true, standardOutPath := "/log/o", standardErrorPath := "/log/e" } :=
  ⟨claim_C4_roundtrip_amended.1 { name := "svc", description := "demo", program := "/bin/app", arguments := ["run", "two words"], workingDirectory := "/tmp", environment := [("K", "V"), ("K2", "V=2")], runAtLoad := true, keepAlive := true, standardOutPath := "/log/o", standardErrorPath := "/log/e" },
   claim_C4_roundtrip_amended.2 { name := "svc", description := "demo", program := "/bin/app", arguments := ["run", "two words"], workingDirectory := "/tmp", environment := [("K", "V"), ("K2", "V=2")], runAtLoad := true, keepAlive := true, standardOutPath := "/log/o", standardErrorPath := "/log/e" } (by decide) (by decide) (by decide)
     (by decide) (by decide) (by decide) (by decide) (by decide) (by decide)⟩

end Autorun
